import Mathlib

/-!
# libcdr `CDRCollector.cpp`: colour conversion and style inheritance

A shallow embedding of `libcdr::CDRParserState::getBMPColor`, `_getRGBColor` and
`getRecursedStyle`, followed by the properties established about them.

Conventions of the embedding:

* machine integers are natural numbers; a conversion to `unsigned short`,
  `unsigned` or `unsigned char` is an explicit reduction modulo `2^16`, `2^32`
  or `2^8`;
* a `double` is the rational number it stands for; in the Pantone case `0x00` and the
  YIQ case `0x0b` every operation is rounded to binary64 (`toDouble`: 53-bit
  significand, round to nearest, ties to even; the exponent range is not modelled, the
  values being far from overflow and underflow); the HSB, HLS and Registration cases
  `0x06`, `0x07` and `0x14` are carried out in exact rational arithmetic, the
  arithmetic their properties are stated in: where an exact value lies on a rounding
  tie, a channel of the compiled code can differ by one from the value given here;
* the embedding is that of the build with `CRD_COLOR` defined (the body of
  `_getRGBColor` between `#ifdef CRD_COLOR` and `#endif`);
* `cmsDoTransform` belongs to the external colour engine: the three transform
  handles of the parser state are arbitrary functions, and what they write into
  an `unsigned char rgb[3]` buffer is read back modulo 256;
* a `while` loop whose exit the code does not guarantee is run on fuel and
  yields `none` when the fuel is used up before the loop exits.
-/

namespace libcdr

/-! ## Data model -/

/-- Colour value `CDRColor`: a colour model code and a packed colour value. -/
structure CDRColor where
  m_colorModel : Nat
  m_colorValue : Nat
deriving DecidableEq

/-- The document palette `m_documentPalette` (a `std::map<unsigned, CDRColor>`), seen
through `find`: `none` stands for `end()`. -/
abbrev Palette := Nat → Option CDRColor

/-- The three transform handles of the parser state, each as the function
`cmsDoTransform` computes with it: from the input buffer to the three values written
to the output buffer. -/
structure ColorTransforms where
  m_colorTransformCMYK2RGB : ℚ → ℚ → ℚ → ℚ → Nat × Nat × Nat
  m_colorTransformLab2RGB : ℚ → ℚ → ℚ → Nat × Nat × Nat
  m_colorTransformRGB2RGB : Nat → Nat → Nat → Nat × Nat × Nat

/-! ## Integer conversions -/

/-- Conversion of an `int` to `unsigned char`. -/
def toUChar (z : Int) : Nat := (z % 256).toNat

/-- Conversion of an `int` to `unsigned`. -/
def toUnsigned (z : Int) : Nat := (z % 4294967296).toNat

/-- Conversion of an `int` to `signed char`. -/
def toSChar (z : Int) : Int := (z + 128) % 256 - 128

/-- Modelled from the spec: `cdr_round` of `libcdr_utils.h`, which is not among the
sources; the spec has it round half away from zero, `d + 0.5` truncated for a
positive `d` and `d - 0.5` truncated otherwise, the result being an `int`. -/
def cdr_round (d : ℚ) : Int :=
  if d > 0 then Int.floor (d + 1 / 2) else Int.ceil (d - 1 / 2)

/-! ## The Pantone swatch tables of CDR1 -/

/-- Table `WaldoColorType0_R`. -/
def WaldoColorType0_R : List Nat :=
  [
   0x00, 0xff, 0xde, 0xa1, 0xc5, 0x7d, 0x0c, 0x00, 0x00, 0x08, 0x30, 0x00, 0x00, 0x00, 0x00, 0x00,
   0x00, 0x00, 0x00, 0x00, 0xe5, 0xdc, 0xba, 0xa6, 0x82, 0xaf, 0xa9, 0x85, 0x78, 0x60, 0x44, 0xcf,
   0xca, 0xbe, 0xb0, 0x91, 0xaa, 0x91, 0x75, 0x5b, 0x4d, 0x32, 0x00, 0x00, 0x00, 0x00, 0x00, 0x00,
   0x00, 0x00, 0x00, 0x00, 0x00, 0x00, 0x00, 0x00, 0x00, 0x00, 0x00, 0x00, 0x00, 0x00, 0x00, 0x00,
   0x00, 0x00, 0x00, 0x00, 0x00, 0x00, 0x00, 0x00, 0x00, 0x00, 0x00, 0x00, 0x00, 0x00, 0x00, 0x00,
   0x00, 0x00, 0x00, 0x00, 0x00, 0x00, 0x00, 0x00, 0x00, 0x00, 0x00, 0x00, 0x00, 0x00, 0x00, 0x00,
   0x00, 0x00, 0x00, 0xff, 0xff, 0xff, 0xff, 0xc5, 0xa4, 0x6a, 0xff, 0xff, 0xff, 0xff, 0xd9, 0xa2,
   0x8e, 0xff, 0xff, 0xff, 0xff, 0xc2, 0xa1, 0x73, 0xff, 0xff, 0xff, 0xff, 0xc3, 0x9a, 0x84, 0xff,
   0xff, 0xff, 0xff, 0xc8, 0x84, 0x52, 0xff, 0xff, 0xff, 0xff, 0xce, 0x93, 0x5a, 0xff, 0xff, 0xf2,
   0xcb, 0xc5, 0x90, 0x5b, 0xff, 0xff, 0xff, 0xff, 0xcb, 0x95, 0x7f, 0xff, 0xff, 0xf5, 0xed, 0xb2,
   0x7a, 0x4d, 0xff, 0xff, 0xff, 0xe6, 0xc2, 0x9b, 0x43, 0xff, 0xff, 0xff, 0xff, 0xb8, 0x72, 0x48,
   0xff, 0xff, 0xff, 0xc6, 0x8e, 0x58, 0xff, 0xff, 0xec, 0xcc, 0xa3, 0x74, 0x49, 0xff, 0xff, 0xdf,
   0xd6, 0x9a, 0x61, 0x44, 0xff, 0xeb, 0xca, 0xaa, 0x8d, 0x71, 0x59, 0xff, 0xe9, 0xd5, 0xaf, 0x7c,
   0x53, 0x43, 0xff, 0xe7, 0xdb, 0xb8, 0xa1, 0x67, 0x44, 0xff, 0xda, 0xbc, 0x7c, 0x65, 0x40, 0xff,
   0xe8, 0xd3, 0xb8, 0x7d, 0x57, 0x3c, 0xff, 0xe4, 0xd0, 0xa6, 0x6c, 0x4a, 0xff, 0xef, 0xc6, 0xab,
   0x80, 0x68, 0x3f, 0xff, 0xde, 0xd0, 0x8d, 0x7c, 0x66, 0x44, 0xf9, 0xe4, 0xab, 0x63, 0x4e, 0x37,
   0xe6, 0xd2, 0x91, 0x64, 0x45, 0x3b, 0x35, 0xda, 0xb1, 0x6f, 0x48, 0x36, 0x2f, 0x21, 0xc2, 0xab,
   0x8c, 0x3e, 0x25, 0x22, 0x1c, 0xc2, 0xa8, 0x7c, 0x06, 0x00, 0x0a, 0xc9, 0xa7, 0x5f, 0x25, 0x00,
   0x00, 0x00, 0xc4, 0x94, 0x75, 0x00, 0x00, 0x00, 0x00, 0x8b, 0x6c, 0x40, 0x0f, 0x00, 0x00, 0x00,
   0xcc, 0x7f, 0x56, 0x00, 0x00, 0x00, 0x9e, 0x72, 0x2e, 0x00, 0x00, 0x00, 0x00, 0xdb, 0xc7, 0x72,
   0x00, 0x00, 0x00, 0x00, 0xb7, 0x89, 0x6b, 0x17, 0x10, 0x00, 0x16, 0xcc, 0xc0, 0x74, 0x17, 0x15,
   0x12, 0xa1, 0x82, 0x59, 0x2a, 0x1b, 0x24, 0x11, 0xc8, 0xbc, 0x8d, 0x3b, 0x30, 0x2a, 0x2d, 0xc8,
   0xbc, 0x92, 0x2b, 0x31, 0x2a, 0x27, 0xd6, 0xb7, 0x8f, 0x5e, 0x4a, 0x46, 0x3f, 0xe5, 0xda, 0xc0,
   0x89, 0x76, 0x62, 0x45, 0xf6, 0xe8, 0xcc, 0xb0, 0x98, 0x7f, 0x51, 0xf7, 0xe6, 0xd1, 0xc4, 0xac,
   0x98, 0x6e, 0xf9, 0xf4, 0xed, 0xec, 0xbb, 0x9f, 0x74, 0xfd, 0xf6, 0xf1, 0xe9, 0xbf, 0xa1, 0x8e,
   0xd3, 0xb2, 0x96, 0x82, 0x5e, 0x33, 0xd6, 0xb5, 0xaa, 0x7c, 0x54, 0x43, 0x11, 0xc8, 0xac, 0x89,
   0x65, 0x4b, 0x39, 0x13, 0xc8, 0xbc, 0x8d, 0x7f, 0x5d, 0x3a, 0x07, 0xcc, 0xb2, 0x8f, 0x78, 0x51,
   0x28, 0x0f, 0xcc, 0xc3, 0x9a, 0x78, 0x3f, 0x26, 0x21, 0xd4, 0xbd, 0x8b, 0x69, 0x47, 0x2e, 0x22,
   0x3a, 0x4f, 0x59, 0xa0, 0xad, 0xc8, 0xdd, 0x54, 0x7f, 0xa8, 0xe2, 0xea, 0xf7, 0xf7, 0x59, 0x6d,
   0x83, 0xc2, 0xd6, 0xdb, 0xea, 0x4d, 0x9f, 0xc2, 0xe9, 0xe6, 0xf0, 0xf3, 0x3b, 0x5a, 0x68, 0xa5,
   0xb1, 0xcc, 0xd6, 0x4f, 0x91, 0xc8, 0xdb, 0xef, 0xeb, 0xf5, 0x4e, 0x60, 0x70, 0xc5, 0xe8, 0xef,
   0xf4, 0x3f, 0x59, 0x72, 0xc7, 0xd5, 0xe4, 0xf0, 0x42, 0x53, 0x60, 0xbc, 0xd2, 0xe9, 0xec, 0x48,
   0x68, 0x80, 0xc2, 0xd3, 0xeb, 0xf7, 0x3b, 0x55, 0x62, 0xa6, 0xbc, 0xd5, 0xe7, 0x3c, 0x4e, 0x5b,
   0x94, 0xba, 0xd2, 0xe2, 0x21, 0x2d, 0x3e, 0x8b, 0xad, 0xb9, 0xcc, 0x18, 0x0f, 0x0f, 0x65, 0x8c,
   0xa9, 0xc3, 0x00, 0x09, 0x1f, 0x59, 0x81, 0x9f, 0xc3, 0x19, 0x18, 0x21, 0x69, 0x95, 0xa5, 0xb7,
   0x1d, 0x27, 0x39, 0x74, 0x92, 0xc4, 0xe1, 0x1b, 0x16, 0x2b, 0x67, 0x93, 0xb6, 0xd1, 0x39, 0x4e,
   0x56, 0xa6, 0xc8, 0xd5, 0xdd, 0x5a, 0x90, 0xa5, 0xd0, 0xdd, 0xe7, 0xe9, 0xff, 0xff, 0xff, 0xff,
   0xce, 0x7c, 0x46, 0xff, 0xff, 0xf5, 0xf7, 0xc2, 0x86, 0x57, 0xff, 0xff, 0xff, 0xe6, 0xc2, 0x7d,
   0x4d, 0xff, 0xff, 0xff, 0xde, 0xc6, 0x78, 0x4f, 0xca, 0xbc, 0x80, 0x59, 0x4c, 0x38, 0x2f, 0xbf,
   0xae, 0x8a, 0x47, 0x3d, 0x35, 0x28, 0xcf, 0xa8, 0x6c, 0x51, 0x20, 0x1e, 0x9c, 0x8e, 0x6c, 0x33,
   0x26, 0x1d, 0x17, 0xbc, 0x7c, 0x56, 0x21, 0x13, 0x00, 0x00, 0x9e, 0x72, 0x00, 0x0d, 0x00, 0x00,
   0x00, 0xae, 0x7e, 0x50, 0x00, 0x00, 0x00, 0x00, 0xac, 0x7c, 0x5e, 0x00, 0x0a, 0x0c, 0x0d, 0x86,
   0x70, 0x29, 0x00, 0x00, 0x00, 0x00, 0xa4, 0x7c, 0x5c, 0x34, 0x30, 0x24, 0x11, 0xff, 0xfb, 0xf8,
   0xe9, 0xab, 0x85, 0x59, 0x4f, 0x77, 0x8a, 0xbb, 0xbf, 0xca, 0xd6, 0x45, 0x7e, 0xa1, 0xbe, 0xc9,
   0xc9, 0xd3, 0x4d, 0x6a, 0x92, 0xae, 0xbc, 0xc8, 0xd1, 0x43, 0x71, 0x92, 0xc6, 0xd5, 0xdb, 0xdd,
   0x3f, 0x63, 0x8c, 0xba, 0xc0, 0xce, 0xd9, 0x2d, 0x44, 0x69, 0x90, 0xac, 0xc2, 0xd7, 0x1e, 0x3a,
   0x42, 0x73, 0x9b, 0xb7, 0xcc, 0x06, 0x1b, 0x4d, 0x75, 0x9a, 0xb0, 0xc3, 0x00, 0x1a, 0x51, 0x89,
   0xa2, 0xbc, 0xd1, 0x00, 0x18, 0x37, 0x77, 0x94, 0xad, 0xc8, 0x28, 0x4c, 0x6a, 0x7b, 0xa1, 0xaf,
   0xc1, 0x17, 0x3a, 0x57, 0x90, 0xac, 0xc0, 0xd6, 0x34, 0x4a, 0x5d, 0x9e, 0xb1, 0xc9, 0xd8, 0x3f,
   0x5d, 0x7e, 0xb1, 0xc8, 0xd5, 0xdd, 0x49, 0x71, 0xa5, 0xc4, 0xca, 0xd3, 0xda
  ]

/-- Table `WaldoColorType0_G`. -/
def WaldoColorType0_G : List Nat :=
  [
   0x00, 0xee, 0x4f, 0x00, 0x00, 0x00, 0x00, 0x75, 0xa3, 0x0d, 0x00, 0x00, 0x00, 0x00, 0x00, 0x00,
   0x00, 0x00, 0x00, 0x00, 0xde, 0xd9, 0xad, 0x96, 0x78, 0x9b, 0x98, 0x7a, 0x6e, 0x58, 0x3c, 0xc9,
   0xc6, 0xb5, 0xa6, 0x8e, 0x9b, 0x8d, 0x74, 0x5a, 0x4d, 0x35, 0x00, 0x00, 0x00, 0x00, 0x00, 0x00,
   0x00, 0x00, 0x00, 0x00, 0x00, 0x00, 0x00, 0x00, 0x00, 0x00, 0x00, 0x00, 0x00, 0x00, 0x00, 0x00,
   0x00, 0x00, 0x00, 0x00, 0x00, 0x00, 0x00, 0x00, 0x00, 0x00, 0x00, 0x00, 0x00, 0x00, 0x00, 0x00,
   0x00, 0x00, 0x00, 0x00, 0x00, 0x00, 0x00, 0x00, 0x00, 0x00, 0x00, 0x00, 0x00, 0x00, 0x00, 0x00,
   0x00, 0x00, 0x00, 0xff, 0xf6, 0xfb, 0xf4, 0xb0, 0x93, 0x60, 0xf3, 0xf4, 0xef, 0xed, 0xbd, 0x8b,
   0x7e, 0xee, 0xef, 0xea, 0xd9, 0xa1, 0x85, 0x69, 0xed, 0xee, 0xe2, 0xd2, 0x98, 0x7f, 0x72, 0xe9,
   0xea, 0xe0, 0xc7, 0x99, 0x6d, 0x4d, 0xe0, 0xd6, 0xc5, 0xac, 0x8b, 0x6c, 0x4e, 0xd5, 0xce, 0xb5,
   0x83, 0x7e, 0x6f, 0x51, 0xd7, 0xca, 0xa7, 0x98, 0x7d, 0x65, 0x58, 0xe4, 0xd4, 0x9a, 0x7f, 0x58,
   0x47, 0x35, 0xcb, 0xb0, 0x93, 0x75, 0x62, 0x54, 0x29, 0xc1, 0x9e, 0x85, 0x6d, 0x58, 0x3d, 0x29,
   0xbd, 0x8e, 0x70, 0x42, 0x38, 0x2a, 0xc5, 0x8e, 0x76, 0x30, 0x22, 0x10, 0x10, 0xb2, 0x98, 0x59,
   0x26, 0x24, 0x13, 0x18, 0xc3, 0xaa, 0x35, 0x17, 0x00, 0x18, 0x1d, 0xc0, 0x7d, 0x56, 0x07, 0x15,
   0x0b, 0x10, 0xa8, 0x6d, 0x33, 0x10, 0x18, 0x15, 0x09, 0xce, 0x74, 0x1a, 0x00, 0x00, 0x00, 0x7a,
   0x5d, 0x31, 0x00, 0x00, 0x00, 0x10, 0xba, 0x6c, 0x34, 0x00, 0x00, 0x00, 0xa1, 0x60, 0x3c, 0x00,
   0x00, 0x00, 0x00, 0xd0, 0x95, 0x67, 0x00, 0x00, 0x00, 0x00, 0xd5, 0x93, 0x35, 0x00, 0x00, 0x00,
   0xb9, 0x9b, 0x45, 0x0a, 0x0f, 0x17, 0x1d, 0xc4, 0x8a, 0x2b, 0x12, 0x05, 0x0a, 0x05, 0xa6, 0x89,
   0x6f, 0x1d, 0x07, 0x0c, 0x0d, 0xc9, 0xab, 0x89, 0x10, 0x0e, 0x0c, 0xd5, 0xb8, 0x74, 0x3f, 0x17,
   0x00, 0x0e, 0xd5, 0xb0, 0x92, 0x00, 0x2a, 0x28, 0x1c, 0xb0, 0x97, 0x7f, 0x59, 0x40, 0x2f, 0x29,
   0xea, 0xcd, 0xa9, 0x67, 0x42, 0x2f, 0xd7, 0xb7, 0x8a, 0x72, 0x62, 0x44, 0x29, 0xff, 0xf5, 0xd6,
   0x96, 0x78, 0x6b, 0x4b, 0xdf, 0xd0, 0xb9, 0x84, 0x5f, 0x4f, 0x37, 0xf5, 0xf0, 0xe2, 0x85, 0x6e,
   0x58, 0xe8, 0xce, 0xaa, 0x91, 0x6d, 0x5c, 0x41, 0xee, 0xf4, 0xee, 0xb2, 0x95, 0x6f, 0x4a, 0xf6,
   0xff, 0xf5, 0xcb, 0x8b, 0x67, 0x47, 0xf0, 0xe3, 0xd4, 0xa2, 0x7d, 0x6c, 0x5c, 0xf4, 0xf1, 0xe7,
   0xca, 0xa6, 0x80, 0x52, 0xff, 0xff, 0xe7, 0xde, 0xbd, 0x93, 0x57, 0xf6, 0xf1, 0xe0, 0xd6, 0xae,
   0x96, 0x6b, 0xfa, 0xfa, 0xfa, 0xff, 0xbf, 0x99, 0x73, 0xf3, 0xf9, 0xf2, 0xf2, 0xba, 0x9b, 0x86,
   0xc9, 0xa3, 0x8d, 0x7a, 0x58, 0x31, 0xca, 0xa6, 0x9c, 0x73, 0x4a, 0x3e, 0x0f, 0xc0, 0xa3, 0x86,
   0x67, 0x4d, 0x3b, 0x13, 0xc3, 0xb7, 0x8b, 0x7d, 0x5b, 0x3a, 0x0b, 0xc7, 0xac, 0x8f, 0x78, 0x55,
   0x2e, 0x10, 0xb0, 0xa4, 0x7b, 0x60, 0x2d, 0x1a, 0x1b, 0xd2, 0xbb, 0x8e, 0x6a, 0x48, 0x2e, 0x24,
   0x31, 0x46, 0x4e, 0x8f, 0x9d, 0xba, 0xd8, 0x4b, 0x70, 0x8f, 0xd3, 0xe1, 0xef, 0xee, 0x45, 0x4f,
   0x5a, 0xa0, 0xba, 0xc5, 0xd9, 0x35, 0x61, 0x6d, 0xa8, 0xb4, 0xcf, 0xd5, 0x29, 0x3d, 0x3e, 0x7f,
   0x92, 0xab, 0xc4, 0x30, 0x41, 0x3f, 0x92, 0xab, 0xb2, 0xcf, 0x2b, 0x27, 0x22, 0x70, 0x9b, 0xb5,
   0xca, 0x29, 0x33, 0x3c, 0x80, 0x98, 0xb1, 0xcd, 0x1f, 0x21, 0x29, 0x6c, 0x83, 0xa6, 0xb8, 0x26,
   0x2f, 0x2e, 0x6a, 0x8b, 0xa5, 0xc7, 0x1d, 0x29, 0x29, 0x72, 0x8d, 0xaa, 0xc7, 0x20, 0x20, 0x1c,
   0x62, 0x86, 0xa2, 0xc5, 0x1e, 0x23, 0x37, 0x80, 0x9e, 0xaf, 0xc8, 0x23, 0x2d, 0x33, 0x7b, 0x9b,
   0xb1, 0xcd, 0x1b, 0x31, 0x47, 0x7a, 0x9c, 0xab, 0xcf, 0x2b, 0x3e, 0x4e, 0x86, 0xa6, 0xb1, 0xc5,
   0x30, 0x50, 0x6c, 0xa1, 0xb4, 0xdd, 0xf6, 0x38, 0x4f, 0x6c, 0xa6, 0xc7, 0xd9, 0xe8, 0x41, 0x62,
   0x77, 0xbe, 0xd8, 0xde, 0xe4, 0x56, 0x91, 0xae, 0xda, 0xe3, 0xec, 0xef, 0xd1, 0xcd, 0xb6, 0x9c,
   0x85, 0x5a, 0x34, 0xcc, 0xa9, 0x85, 0x78, 0x63, 0x4e, 0x31, 0xb6, 0xa5, 0x83, 0x60, 0x56, 0x3b,
   0x27, 0xa7, 0x88, 0x63, 0x2c, 0x2d, 0x19, 0x18, 0x61, 0x39, 0x0e, 0x00, 0x00, 0x00, 0x00, 0x6b,
   0x3d, 0x20, 0x00, 0x00, 0x00, 0x00, 0x99, 0x4e, 0x0f, 0x00, 0x00, 0x12, 0x79, 0x74, 0x22, 0x00,
   0x00, 0x00, 0x00, 0xd5, 0xac, 0x9a, 0x76, 0x52, 0x39, 0x25, 0xd7, 0xb4, 0x92, 0x76, 0x68, 0x47,
   0x35, 0xe9, 0xe3, 0xc3, 0x94, 0x78, 0x51, 0x32, 0xdf, 0xd0, 0xb9, 0x91, 0x71, 0x5b, 0x37, 0xd6,
   0xcd, 0xa8, 0x8a, 0x6e, 0x57, 0x2e, 0xe9, 0xe5, 0xd4, 0xa5, 0x80, 0x5c, 0x38, 0xff, 0xfe, 0xfa,
   0xec, 0xa2, 0x81, 0x56, 0x42, 0x69, 0x7c, 0xab, 0xb0, 0xc4, 0xd1, 0x2a, 0x59, 0x7a, 0x96, 0xa9,
   0xac, 0xba, 0x2b, 0x3e, 0x6e, 0x84, 0x95, 0xac, 0xb7, 0x2d, 0x43, 0x60, 0x94, 0xa4, 0xc2, 0xcc,
   0x18, 0x2e, 0x56, 0x89, 0x9a, 0xb1, 0xc8, 0x1b, 0x29, 0x48, 0x72, 0x8d, 0xaa, 0xc7, 0x00, 0x20,
   0x1c, 0x5c, 0x84, 0xa4, 0xc3, 0x1c, 0x33, 0x5f, 0x80, 0x9e, 0xaf, 0xc8, 0x25, 0x47, 0x74, 0x9f,
   0xb4, 0xca, 0xdc, 0x1b, 0x39, 0x53, 0x87, 0xa0, 0xb4, 0xd0, 0x38, 0x64, 0x83, 0x8f, 0xad, 0xb9,
   0xcc, 0x27, 0x50, 0x69, 0x9d, 0xb1, 0xcc, 0xde, 0x3d, 0x57, 0x6c, 0xa1, 0xb0, 0xcb, 0xd9, 0x45,
   0x66, 0x87, 0xb2, 0xcc, 0xd9, 0xde, 0x4a, 0x74, 0xa0, 0xc0, 0xc7, 0xd0, 0xd7
  ]

/-- Table `WaldoColorType0_B`. -/
def WaldoColorType0_B : List Nat :=
  [
   0x00, 0x00, 0x16, 0x6a, 0x8e, 0x89, 0x87, 0xad, 0x6e, 0x02, 0x7b, 0x00, 0x00, 0x00, 0x00, 0x00,
   0x00, 0x00, 0x00, 0x00, 0xc5, 0xc7, 0xa4, 0x8d, 0x72, 0x8f, 0x8d, 0x74, 0x6b, 0x57, 0x3e, 0xb5,
   0xba, 0xb2, 0xa6, 0x92, 0x98, 0x90, 0x7e, 0x68, 0x5c, 0x43, 0x00, 0x00, 0x00, 0x00, 0x00, 0x00,
   0x00, 0x00, 0x00, 0x00, 0x00, 0x00, 0x00, 0x00, 0x00, 0x00, 0x00, 0x00, 0x00, 0x00, 0x00, 0x00,
   0x00, 0x00, 0x00, 0x00, 0x00, 0x00, 0x00, 0x00, 0x00, 0x00, 0x00, 0x00, 0x00, 0x00, 0x00, 0x00,
   0x00, 0x00, 0x00, 0x00, 0x00, 0x00, 0x00, 0x00, 0x00, 0x00, 0x00, 0x00, 0x00, 0x00, 0x00, 0x00,
   0x00, 0x00, 0x00, 0xff, 0x81, 0x6b, 0x00, 0x0a, 0x00, 0x00, 0x7a, 0x6b, 0x5e, 0x2f, 0x11, 0x00,
   0x00, 0x7a, 0x6a, 0x57, 0x00, 0x00, 0x0d, 0x0f, 0x7a, 0x76, 0x1c, 0x00, 0x00, 0x00, 0x00, 0x7a,
   0x78, 0x1a, 0x00, 0x00, 0x00, 0x05, 0x72, 0x5f, 0x1a, 0x00, 0x00, 0x00, 0x09, 0x61, 0x4c, 0x2b,
   0x00, 0x00, 0x00, 0x01, 0x88, 0x74, 0x19, 0x00, 0x00, 0x00, 0x00, 0xa3, 0x83, 0x4c, 0x2e, 0x2a,
   0x02, 0x06, 0x8b, 0x73, 0x51, 0x00, 0x00, 0x05, 0x0d, 0x98, 0x7c, 0x5d, 0x0d, 0x02, 0x07, 0x04,
   0xab, 0x83, 0x61, 0x30, 0x25, 0x23, 0xba, 0x9e, 0x8e, 0x4f, 0x3a, 0x19, 0x10, 0xb1, 0xa9, 0x78,
   0x54, 0x47, 0x33, 0x2e, 0xbd, 0xb1, 0x6a, 0x43, 0x34, 0x39, 0x1f, 0xc3, 0xa2, 0x86, 0x55, 0x49,
   0x34, 0x30, 0xb9, 0x9c, 0x81, 0x63, 0x5b, 0x44, 0x30, 0xdf, 0xb1, 0x88, 0x56, 0x49, 0x31, 0xc5,
   0xac, 0x98, 0x81, 0x5e, 0x46, 0x36, 0xd4, 0xb2, 0x9e, 0x7b, 0x59, 0x40, 0xd8, 0xc6, 0xa5, 0x89,
   0x71, 0x5d, 0x3c, 0xed, 0xc5, 0xc2, 0x8a, 0x7c, 0x6e, 0x4d, 0xee, 0xff, 0xbe, 0x74, 0x58, 0x47,
   0xd3, 0xc6, 0xa5, 0x7f, 0x56, 0x4e, 0x4a, 0xde, 0xd0, 0xb1, 0x8a, 0x70, 0x5e, 0x4d, 0xcc, 0xc4,
   0xba, 0x88, 0x65, 0x57, 0x45, 0xdc, 0xdd, 0xc4, 0x6a, 0x4f, 0x44, 0xf0, 0xdf, 0xe2, 0xb6, 0x69,
   0x67, 0x44, 0xe5, 0xdc, 0xc7, 0xb4, 0x7f, 0x6c, 0x48, 0xc9, 0xb8, 0xb3, 0xa0, 0x85, 0x5d, 0x4d,
   0xe4, 0xe1, 0xc7, 0x95, 0x61, 0x4e, 0xd2, 0xc1, 0xa1, 0x91, 0x81, 0x5f, 0x3c, 0xe4, 0xdf, 0xc1,
   0x96, 0x7d, 0x71, 0x55, 0xc2, 0xb0, 0xa1, 0x79, 0x5e, 0x50, 0x3f, 0xc2, 0xbe, 0xa3, 0x5c, 0x54,
   0x4b, 0xb1, 0x9d, 0x80, 0x67, 0x52, 0x4a, 0x3d, 0xa5, 0xa2, 0x88, 0x53, 0x40, 0x36, 0x1f, 0xa6,
   0xa0, 0x8f, 0x4c, 0x40, 0x39, 0x30, 0x94, 0x6f, 0x4e, 0x23, 0x22, 0x18, 0x12, 0x91, 0x73, 0x52,
   0x03, 0x00, 0x00, 0x0a, 0x74, 0x6c, 0x3d, 0x00, 0x00, 0x00, 0x00, 0x66, 0x57, 0x22, 0x00, 0x00,
   0x00, 0x00, 0x7e, 0x62, 0x37, 0x0d, 0x00, 0x00, 0x00, 0x78, 0x4f, 0x20, 0x00, 0x00, 0x00, 0x03,
   0xaf, 0x90, 0x80, 0x6d, 0x54, 0x2e, 0xb5, 0x9a, 0x97, 0x71, 0x48, 0x44, 0x0a, 0xa6, 0x96, 0x7d,
   0x64, 0x4b, 0x3b, 0x17, 0xbb, 0xb8, 0x92, 0x82, 0x60, 0x48, 0x1c, 0xbb, 0xb0, 0x99, 0x82, 0x67,
   0x48, 0x20, 0xa6, 0x9d, 0x7f, 0x6a, 0x3d, 0x25, 0x22, 0xc6, 0xb8, 0x91, 0x6d, 0x50, 0x3b, 0x22,
   0x16, 0x3a, 0x2d, 0x72, 0x86, 0x95, 0xad, 0x25, 0x19, 0x2f, 0x60, 0x71, 0x83, 0x98, 0x35, 0x2b,
   0x35, 0x75, 0x8a, 0x8e, 0xa3, 0x22, 0x2e, 0x21, 0x72, 0x80, 0x99, 0x9e, 0x2d, 0x3b, 0x3b, 0x6f,
   0x86, 0x97, 0xaf, 0x20, 0x20, 0x31, 0x79, 0x8d, 0x98, 0xb0, 0x33, 0x32, 0x37, 0x7d, 0x9e, 0xb1,
   0xb6, 0x1b, 0x31, 0x38, 0x7e, 0x90, 0xa5, 0xb9, 0x31, 0x38, 0x44, 0x83, 0x90, 0xa9, 0xb8, 0x4a,
   0x6f, 0x83, 0xa9, 0xb4, 0xc2, 0xcf, 0x3e, 0x61, 0x6f, 0x9a, 0xa6, 0xb9, 0xce, 0x56, 0x77, 0x8b,
   0xa8, 0xc1, 0xcd, 0xe1, 0x3c, 0x4e, 0x6b, 0x99, 0xb5, 0xc2, 0xd0, 0x4c, 0x67, 0x7c, 0xab, 0xbc,
   0xc6, 0xdc, 0x39, 0x51, 0x69, 0x96, 0xac, 0xb3, 0xcd, 0x00, 0x00, 0x27, 0x6d, 0x90, 0x9a, 0xaa,
   0x27, 0x46, 0x5d, 0x85, 0x99, 0xbe, 0xd7, 0x2d, 0x3b, 0x55, 0x84, 0x9e, 0xb2, 0xc1, 0x00, 0x00,
   0x00, 0x64, 0x85, 0x87, 0x9a, 0x00, 0x00, 0x00, 0x5b, 0x65, 0x73, 0x8d, 0x70, 0x64, 0x15, 0x00,
   0x00, 0x00, 0x00, 0x8f, 0x63, 0x32, 0x00, 0x00, 0x00, 0x00, 0x8c, 0x7b, 0x4f, 0x00, 0x00, 0x00,
   0x00, 0xa5, 0x8f, 0x75, 0x1a, 0x37, 0x15, 0x18, 0xff, 0xff, 0xbe, 0x89, 0x74, 0x58, 0x4e, 0xff,
   0xff, 0xdb, 0x80, 0x70, 0x63, 0x52, 0xff, 0xff, 0xc0, 0xa0, 0x5f, 0x4c, 0xcc, 0xcc, 0xcf, 0x8e,
   0x6f, 0x57, 0x45, 0xda, 0xd1, 0xc9, 0xc1, 0x8a, 0x5d, 0x40, 0xca, 0xb6, 0xa1, 0x8b, 0x7c, 0x5b,
   0x48, 0xc3, 0xb7, 0x9e, 0x7c, 0x6c, 0x4f, 0x38, 0xb7, 0xa6, 0x96, 0x76, 0x60, 0x51, 0x32, 0xb0,
   0xa6, 0x89, 0x6e, 0x5c, 0x49, 0x26, 0xa7, 0x95, 0x81, 0x62, 0x57, 0x44, 0x23, 0x78, 0x4f, 0x20,
   0x00, 0x00, 0x00, 0x00, 0x0c, 0x00, 0x3e, 0x7e, 0x84, 0x9b, 0xa9, 0x00, 0x43, 0x62, 0x75, 0x8c,
   0x91, 0x9c, 0x32, 0x3e, 0x66, 0x74, 0x80, 0x99, 0x9e, 0x3a, 0x55, 0x6d, 0x9a, 0xa7, 0xb9, 0xc3,
   0x4a, 0x6f, 0x91, 0xad, 0xb3, 0xc2, 0xcd, 0x3e, 0x52, 0x70, 0x8b, 0x9f, 0xb3, 0xc6, 0x4b, 0x77,
   0x8b, 0xac, 0xc1, 0xcd, 0xe1, 0x50, 0x65, 0x85, 0x9c, 0xb8, 0xc5, 0xd4, 0x3e, 0x5b, 0x83, 0xa3,
   0xb4, 0xc2, 0xd0, 0x31, 0x4c, 0x63, 0x8c, 0xa0, 0xb0, 0xc7, 0x40, 0x5c, 0x77, 0x82, 0x9f, 0xa8,
   0xb7, 0x21, 0x4d, 0x63, 0x91, 0xa2, 0xb5, 0xc8, 0x29, 0x35, 0x3d, 0x75, 0x7e, 0xa2, 0xae, 0x11,
   0x00, 0x46, 0x73, 0x91, 0xa2, 0xad, 0x2a, 0x3d, 0x69, 0x7d, 0x85, 0x8f, 0xa3
  ]

/-! ## `_getRGBColor` -/

/-- The spot-colour lookup at the head of `_getRGBColor`: the colour model and colour
value the `switch` works on. A colour of model `0x19` whose 16-bit index is in the
palette is replaced, once, by the palette entry. -/
def spotLookup (m_documentPalette : Palette) (color : CDRColor) : Nat × Nat :=
  let colorModel := color.m_colorModel % 65536
  let colorValue := color.m_colorValue % 4294967296
  if colorModel = 0x19 then
    let colourIndex := (colorValue &&& 0xffff) % 65536
    match m_documentPalette colourIndex with
    | some entry => (entry.m_colorModel % 65536, entry.m_colorValue % 4294967296)
    | none => (colorModel, colorValue)
  else (colorModel, colorValue)

/-! ### Binary64 arithmetic -/

/-- The number of binary digits of `n`; every pass halves `n`, so fuel `n` is enough. -/
def bitLength : Nat → Nat → Nat
  | 0, _ => 0
  | fuel + 1, n => if n = 0 then 0 else bitLength fuel (n / 2) + 1

/-- The power of two `2^e` for an integer exponent. -/
def pow2 (e : Int) : ℚ := if 0 ≤ e then (2 : ℚ) ^ e.toNat else 1 / (2 : ℚ) ^ (-e).toNat

/-- The binary exponent of a non-zero rational `q`: the `e` with `2^e ≤ |q| < 2^(e+1)`. -/
def binade (q : ℚ) : Int :=
  let e0 : Int := (bitLength q.num.natAbs q.num.natAbs : Int) - (bitLength q.den q.den : Int)
  if pow2 e0 ≤ |q| then e0 else e0 - 1

/-- Rounding to the nearest integer, a tie going to the even one. -/
def roundHalfEven (q : ℚ) : Int :=
  if q - Int.floor q < 1 / 2 then Int.floor q
  else if 1 / 2 < q - Int.floor q then Int.floor q + 1
  else if Int.floor q % 2 = 0 then Int.floor q else Int.floor q + 1

/-- The `double` nearest to `q`: `q` rounded to a 53-bit significand, to nearest, ties
to even. This is the result of a `double` operation whose exact result is `q`. -/
def toDouble (q : ℚ) : ℚ :=
  if q = 0 then 0 else (roundHalfEven (q / pow2 (binade q - 52)) : ℚ) * pow2 (binade q - 52)

/-- The unit roundoff of binary64, `2^-53`: the relative error of `toDouble` is at most
this. -/
def unitRoundoff : ℚ := 1 / 2 ^ 53

/-- The expression `255.0*(1-pantoneSaturation) + (double)pure*pantoneSaturation` of
case `0x00` in `double` arithmetic: the subtraction, the two products and the sum are
each rounded. -/
def blendDouble (pure : Nat) (pantoneSaturation : ℚ) : ℚ :=
  toDouble (toDouble (255 * toDouble (1 - pantoneSaturation)) +
    toDouble ((pure : ℚ) * pantoneSaturation))

/-- Case `0x00`, Pantone palette in CDR1. -/
def pantoneCDR1 (col0 col1 col2 col3 : Nat) : Nat × Nat × Nat :=
  let pantoneIndex := ((col1 <<< 8) ||| col0) % 65536
  let pantoneSaturation : ℚ :=
    toDouble (((((col3 % 65536) <<< 8) ||| (col2 % 65536) : Nat) : ℚ) / 100)
  let inTable := pantoneIndex < WaldoColorType0_R.length
    ∧ pantoneIndex < WaldoColorType0_G.length
    ∧ pantoneIndex < WaldoColorType0_B.length
  let pureR := if inTable then WaldoColorType0_R.getD pantoneIndex 0 else 0
  let pureG := if inTable then WaldoColorType0_G.getD pantoneIndex 0 else 0
  let pureB := if inTable then WaldoColorType0_B.getD pantoneIndex 0 else 0
  let tmpRed := toUnsigned (cdr_round (blendDouble pureR pantoneSaturation))
  let tmpGreen := toUnsigned (cdr_round (blendDouble pureG pantoneSaturation))
  let tmpBlue := toUnsigned (cdr_round (blendDouble pureB pantoneSaturation))
  (if tmpRed < 255 then tmpRed % 256 else 255,
   if tmpGreen < 255 then tmpGreen % 256 else 255,
   if tmpBlue < 255 then tmpBlue % 256 else 255)

/-- The loop `while (hue > 360) hue -= 360;`, on fuel. -/
def hueLoop : Nat → Nat → Nat
  | 0, hue => hue
  | fuel + 1, hue => if hue > 360 then hueLoop fuel (hue - 360) else hue

/-- The hue after the loop; every pass lowers the hue, so fuel `hue` is enough. -/
def wrapHue (hue : Nat) : Nat := hueLoop hue hue

/-- The hue-sector factors `satRed`, `satGreen`, `satBlue` of the HSB and HLS cases. -/
def hueSectors (hue : Nat) : ℚ × ℚ × ℚ :=
  if hue < 120 then
    ((((120 : Int) - hue : Int) : ℚ) / 60, (hue : ℚ) / 60, 0)
  else if hue < 240 then
    (0, (((240 : Int) - hue : Int) : ℚ) / 60, (((hue : Int) - 120 : Int) : ℚ) / 60)
  else
    ((((hue : Int) - 240 : Int) : ℚ) / 60, 0, (((360 : Int) - hue : Int) : ℚ) / 60)

/-- The clamp `sat > 1 ? 1 : sat`. -/
def clampOne (sat : ℚ) : ℚ := if sat > 1 then 1 else sat

/-- Case `0x06`, HSB. -/
def hsb (col0 col1 col2 col3 : Nat) : Nat × Nat × Nat :=
  let hue := wrapHue (((col1 <<< 8) ||| col0) % 65536)
  let saturation : ℚ := (col2 : ℚ) / 255
  let brightness : ℚ := (col3 : ℚ) / 255
  let sat := hueSectors hue
  (toUChar (cdr_round (255 * (1 - saturation + saturation * clampOne sat.1) * brightness)),
   toUChar (cdr_round (255 * (1 - saturation + saturation * clampOne sat.2.1) * brightness)),
   toUChar (cdr_round (255 * (1 - saturation + saturation * clampOne sat.2.2) * brightness)))

/-- Case `0x07`, HLS. -/
def hls (col0 col1 col2 col3 : Nat) : Nat × Nat × Nat :=
  let hue := wrapHue (((col1 <<< 8) ||| col0) % 65536)
  let lightness : ℚ := (col2 : ℚ) / 255
  let saturation : ℚ := (col3 : ℚ) / 255
  let sat := hueSectors hue
  let tmpRed : ℚ := 2 * saturation * clampOne sat.1 + 1 - saturation
  let tmpGreen : ℚ := 2 * saturation * clampOne sat.2.1 + 1 - saturation
  let tmpBlue : ℚ := 2 * saturation * clampOne sat.2.2 + 1 - saturation
  if lightness < 1 / 2 then
    (toUChar (cdr_round (255 * lightness * tmpRed)),
     toUChar (cdr_round (255 * lightness * tmpGreen)),
     toUChar (cdr_round (255 * lightness * tmpBlue)))
  else
    (toUChar (cdr_round (255 * ((1 - lightness) * tmpRed + 2 * lightness - 1))),
     toUChar (cdr_round (255 * ((1 - lightness) * tmpGreen + 2 * lightness - 1))),
     toUChar (cdr_round (255 * ((1 - lightness) * tmpBlue + 2 * lightness - 1))))

/-- The clamp of a YIQ result to `[0, 1]`: first `> 1.0`, then `< 0.0`. -/
def clampUnit (x : ℚ) : ℚ :=
  let x1 := if x > 1 then 1 else x
  if x1 < 0 then 0 else x1

/-- Case `0x0b`, YIQ255, every operation rounded to binary64. -/
def yiq255 (col0 col1 col2 : Nat) : Nat × Nat × Nat :=
  let y0 : ℚ := toDouble ((col0 : ℚ) - 100)
  let y1 : ℚ := if y0 < 0 then toDouble (y0 / 100) else toDouble (y0 / 155)
  let y2 : ℚ := toDouble (y1 * toDouble (1 / 2))
  let y : ℚ := toDouble (y2 + toDouble (1 / 2))
  let i0 : ℚ := toDouble ((col1 : ℚ) - 100)
  let i1 : ℚ := if i0 ≤ 0 then toDouble (i0 / 100) else toDouble (i0 / 155)
  let i : ℚ := toDouble (i1 * toDouble (5957 / 10000))
  let q0 : ℚ := toDouble ((col2 : ℚ) - 100)
  let q1 : ℚ := if q0 ≤ 0 then toDouble (q0 / 100) else toDouble (q0 / 155)
  let q : ℚ := toDouble (q1 * toDouble (5226 / 10000))
  let RR : ℚ := clampUnit (toDouble (toDouble (y + toDouble (toDouble (9563 / 10000) * i)) +
    toDouble (toDouble (6210 / 10000) * q)))
  let GG : ℚ := clampUnit (toDouble (toDouble (y - toDouble (toDouble (2127 / 10000) * i)) -
    toDouble (toDouble (6474 / 10000) * q)))
  let BB : ℚ := clampUnit (toDouble (toDouble (y - toDouble (toDouble (11070 / 10000) * i)) +
    toDouble (toDouble (17046 / 10000) * q)))
  (toUChar (cdr_round (toDouble (255 * RR))), toUChar (cdr_round (toDouble (255 * GG))),
   toUChar (cdr_round (toDouble (255 * BB))))

/-- The three bytes an `unsigned char rgb[3]` buffer holds after a transform wrote
to it. -/
def readRGB (out : Nat × Nat × Nat) : Nat × Nat × Nat :=
  (out.1 % 256, out.2.1 % 256, out.2.2 % 256)

/-- The `switch (colorModel)` of `_getRGBColor`: the values of `red`, `green` and
`blue` it leaves, each an `unsigned char` that starts at 0. -/
def switchChannels (icc : ColorTransforms) (colorModel colorValue : Nat) : Nat × Nat × Nat :=
  let col0 := colorValue &&& 0xff
  let col1 := (colorValue &&& 0xff00) >>> 8
  let col2 := (colorValue &&& 0xff0000) >>> 16
  let col3 := (colorValue &&& 0xff000000) >>> 24
  match colorModel with
  | 0x00 => pantoneCDR1 col0 col1 col2 col3
  | 0x01 | 0x02 | 0x15 =>
    readRGB (icc.m_colorTransformCMYK2RGB col0 col1 col2 col3)
  | 0x03 | 0x11 =>
    readRGB (icc.m_colorTransformCMYK2RGB ((col0 : ℚ) * 100 / 255) ((col1 : ℚ) * 100 / 255)
      ((col2 : ℚ) * 100 / 255) ((col3 : ℚ) * 100 / 255))
  | 0x04 => (255 - col0, 255 - col1, 255 - col2)
  | 0x05 => readRGB (icc.m_colorTransformRGB2RGB col2 col1 col0)
  | 0x06 => hsb col0 col1 col2 col3
  | 0x07 => hls col0 col1 col2 col3
  | 0x08 => (if col0 ≠ 0 then 0 else 0xff, if col0 ≠ 0 then 0 else 0xff, if col0 ≠ 0 then 0 else 0xff)
  | 0x09 => (col0, col0, col0)
  | 0x0b => yiq255 col0 col1 col2
  | 0x0c =>
    readRGB (icc.m_colorTransformLab2RGB ((col0 : ℚ) * 100 / 255) (toSChar col1) (toSChar col2))
  | 0x12 =>
    readRGB (icc.m_colorTransformLab2RGB ((col0 : ℚ) * 100 / 255)
      (toSChar ((col1 : Int) - 0x80)) (toSChar ((col2 : Int) - 0x80)))
  | 0x14 =>
    (toUChar (cdr_round (255 * (col0 : ℚ) / 100)),
     toUChar (cdr_round (255 * (col0 : ℚ) / 100)),
     toUChar (cdr_round (255 * (col0 : ℚ) / 100)))
  | _ => (0, 0, 0)

/-- The return value `(unsigned)((red << 16) | (green << 8) | blue)`. -/
def packRGB (rgb : Nat × Nat × Nat) : Nat :=
  ((rgb.1 <<< 16) ||| (rgb.2.1 <<< 8) ||| rgb.2.2) % 4294967296

/-- The function `CDRParserState::_getRGBColor`. -/
def _getRGBColor (icc : ColorTransforms) (m_documentPalette : Palette) (color : CDRColor) : Nat :=
  let resolved := spotLookup m_documentPalette color
  packRGB (switchChannels icc resolved.1 resolved.2)

/-- The function `CDRParserState::getBMPColor`. -/
def getBMPColor (icc : ColorTransforms) (m_documentPalette : Palette) (color : CDRColor) : Nat :=
  match color.m_colorModel % 65536 with
  | 0 => _getRGBColor icc m_documentPalette ⟨0, color.m_colorValue⟩
  | 1 => _getRGBColor icc m_documentPalette ⟨5, color.m_colorValue⟩
  | 2 => _getRGBColor icc m_documentPalette ⟨4, color.m_colorValue⟩
  | 3 => _getRGBColor icc m_documentPalette ⟨3, color.m_colorValue⟩
  | 4 => _getRGBColor icc m_documentPalette ⟨6, color.m_colorValue⟩
  | 5 => _getRGBColor icc m_documentPalette ⟨9, color.m_colorValue⟩
  | 6 => _getRGBColor icc m_documentPalette ⟨8, color.m_colorValue⟩
  | 7 => _getRGBColor icc m_documentPalette ⟨7, color.m_colorValue⟩
  | 8 => color.m_colorValue % 4294967296
  | 9 => color.m_colorValue % 4294967296
  | 10 => _getRGBColor icc m_documentPalette ⟨5, color.m_colorValue⟩
  | 11 => _getRGBColor icc m_documentPalette ⟨18, color.m_colorValue⟩
  | _ => color.m_colorValue % 4294967296

/-- Three values that each fit an `unsigned char`. -/
def IsByteTriple (t : Nat × Nat × Nat) : Prop := t.1 < 256 ∧ t.2.1 < 256 ∧ t.2.2 < 256

/-- The colour model codes with a `case` of their own in the `switch`, and the spot
model `0x19`. -/
def handledModels : List Nat :=
  [0x00, 0x01, 0x02, 0x03, 0x04, 0x05, 0x06, 0x07, 0x08, 0x09, 0x0b, 0x0c, 0x11, 0x12, 0x14,
   0x15, 0x19]

/-! ## Style records and `getRecursedStyle` -/

/-- Modelled from the spec: the style record `CDRStyle` of `CDRTypes.h`, which is
not among the sources: a parent identifier, zero for a root, and a sparse set of
attribute overrides, an attribute being set when it has a value. -/
structure CDRStyle (κ ν : Type) where
  m_parentId : Nat
  m_attrs : κ → Option ν

/-- The style map `m_styles` (a `std::map<unsigned, CDRStyle>`), seen through `find`:
`none` stands for `end()`. -/
abbrev StyleMap (κ ν : Type) := Nat → Option (CDRStyle κ ν)

/-- Modelled from the spec: `CDRStyle::overrideStyle` of `CDRTypes.h`, which is not
among the sources: every attribute the overriding record sets overwrites the
accumulator's, and everything else of the accumulator is kept. -/
def CDRStyle.overrideStyle {κ ν : Type} (style override : CDRStyle κ ν) : CDRStyle κ ν :=
  ⟨style.m_parentId, fun a =>
    match override.m_attrs a with
    | some v => some v
    | none => style.m_attrs a⟩

/-- An override function that overwrites exactly the attributes the overriding record
sets. -/
def OverwritesSetAttributes {κ ν : Type}
    (ov : CDRStyle κ ν → CDRStyle κ ν → CDRStyle κ ν) : Prop :=
  ∀ style o : CDRStyle κ ν,
    (ov style o).m_parentId = style.m_parentId ∧
    ∀ a, (ov style o).m_attrs a =
      match o.m_attrs a with
      | some v => some v
      | none => style.m_attrs a

/-- The parent walk of `getRecursedStyle`, `while (iter2 != m_styles.end())`, on fuel:
`iter2` is the record the iterator points to, `none` for `end()`; the head of
`styleStack` is the top of the stack. The result is the stack when the loop exits. -/
def pushParents {κ ν : Type} (m_styles : StyleMap κ ν) :
    Nat → Option (CDRStyle κ ν) → List (CDRStyle κ ν) → Option (List (CDRStyle κ ν))
  | _, none, styleStack => some styleStack
  | 0, some _, _ => none
  | fuel + 1, some parent, styleStack =>
    pushParents m_styles fuel
      (if parent.m_parentId ≠ 0 then m_styles parent.m_parentId else none)
      (parent :: styleStack)

/-- The loop `while (!styleStack.empty())` of `getRecursedStyle`: the top of the
stack overrides the style and is popped. -/
def applyStack {κ ν : Type} (overrideStyle : CDRStyle κ ν → CDRStyle κ ν → CDRStyle κ ν) :
    List (CDRStyle κ ν) → CDRStyle κ ν → CDRStyle κ ν
  | [], style => style
  | top :: rest, style => applyStack overrideStyle rest (overrideStyle style top)

/-- The function `CDRParserState::getRecursedStyle`: the value of `style` when the
call returns, `none` when the parent walk is still running after `fuel` passes. -/
def getRecursedStyle {κ ν : Type} (overrideStyle : CDRStyle κ ν → CDRStyle κ ν → CDRStyle κ ν)
    (m_styles : StyleMap κ ν) (fuel : Nat) (style : CDRStyle κ ν) (styleId : Nat) :
    Option (CDRStyle κ ν) :=
  match m_styles styleId with
  | none => some style
  | some found =>
    let styleStack := [found]
    let walked :=
      if found.m_parentId ≠ 0 then
        pushParents m_styles fuel (m_styles found.m_parentId) styleStack
      else some styleStack
    walked.map (fun stack => applyStack overrideStyle stack style)

/-- The parent chain of `styleId` in a style map is finite: `chain` lists its
records from the requested one up to the root-most one, which has parent id zero or
a parent id that is not a key of the map. -/
def IsParentChain {κ ν : Type} (m_styles : StyleMap κ ν) :
    Nat → List (CDRStyle κ ν) → Prop
  | _, [] => False
  | styleId, [s] =>
    m_styles styleId = some s ∧ (s.m_parentId = 0 ∨ m_styles s.m_parentId = none)
  | styleId, s :: t :: rest =>
    m_styles styleId = some s ∧ s.m_parentId ≠ 0 ∧ IsParentChain m_styles s.m_parentId (t :: rest)

/-- The value of attribute `a` in the record nearest to the leaf that sets it, the
chain being listed from the leaf up. -/
def nearestSet {κ ν : Type} (chain : List (CDRStyle κ ν)) (a : κ) : Option ν :=
  chain.findSome? (fun s => s.m_attrs a)

/-! ## Concrete palettes, transforms and style maps -/

/-- Transforms that write zeros. -/
def zeroTransforms : ColorTransforms :=
  ⟨fun _ _ _ _ => (0, 0, 0), fun _ _ _ => (0, 0, 0), fun _ _ _ => (0, 0, 0)⟩

/-- The empty palette. -/
def emptyPalette : Palette := fun _ => none

/-- The palette with index 5 mapped to grayscale `0x40`. -/
def grayPalette : Palette := fun i => if i = 5 then some ⟨0x09, 0x40⟩ else none

/-- The palette with index 1 mapped to the spot colour of index 2, and index 2 mapped
to grayscale `0x40`. -/
def chainedPalette : Palette := fun i =>
  if i = 1 then some ⟨0x19, 2⟩ else if i = 2 then some ⟨0x09, 0x40⟩ else none

/-- Attribute names of the example styles. -/
inductive DemoAttr where
  | A
  | B
deriving DecidableEq

/-- Attribute values of the example styles. -/
inductive DemoValue where
  | red
  | blue
  | green
deriving DecidableEq

/-- A root style that sets `A` to red. -/
def demoRoot : CDRStyle DemoAttr DemoValue :=
  ⟨0, fun a => match a with
    | .A => some .red
    | .B => none⟩

/-- A child of style 1 that sets only `B`, to blue. -/
def demoChild : CDRStyle DemoAttr DemoValue :=
  ⟨1, fun a => match a with
    | .A => none
    | .B => some .blue⟩

/-- A child of style 1 that sets `A` to green. -/
def demoSecondChild : CDRStyle DemoAttr DemoValue :=
  ⟨1, fun a => match a with
    | .A => some .green
    | .B => none⟩

/-- A style whose parent, 7, is not in the map. -/
def demoOrphan : CDRStyle DemoAttr DemoValue :=
  ⟨7, fun a => match a with
    | .A => none
    | .B => some .blue⟩

/-- The style map with the root as 1, its two children as 2 and 3, the orphan as 4. -/
def demoStyles : StyleMap DemoAttr DemoValue := fun styleId =>
  match styleId with
  | 1 => some demoRoot
  | 2 => some demoChild
  | 3 => some demoSecondChild
  | 4 => some demoOrphan
  | _ => none

/-- The style with no attribute set. -/
def emptyStyle : CDRStyle DemoAttr DemoValue := ⟨0, fun _ => none⟩

/-- A style map whose record 1 names itself as parent. -/
def selfParentStyles : StyleMap DemoAttr DemoValue := fun styleId =>
  if styleId = 1 then some ⟨1, fun _ => none⟩ else none

/-- A style map whose records 1 and 2 name each other as parent. -/
def mutualParentStyles : StyleMap DemoAttr DemoValue := fun styleId =>
  if styleId = 1 then some ⟨2, fun _ => none⟩
  else if styleId = 2 then some ⟨1, fun _ => none⟩ else none

/-! ## Vocabulary of the numeric claims -/

/-- Rounding half away from zero, as the spec names it: the nearest integer, a tie
going to the integer of larger magnitude. -/
def roundHalfAway (q : ℚ) : Int :=
  if 0 ≤ q then Int.floor (q + 1 / 2) else -Int.floor (-q + 1 / 2)

/-- The 32-bit value that packs four bytes, `col0` in the lowest byte. -/
def packedValue (col0 col1 col2 col3 : Nat) : Nat :=
  col0 + 256 * col1 + 65536 * col2 + 16777216 * col3

/-- The Pantone blend of the spec for a swatch channel `p` and a saturation field
`s`: `255*(1 - s/100) + p*s/100`. -/
def pantoneBlend (p s : Nat) : ℚ := 255 * (1 - (s : ℚ) / 100) + (p : ℚ) * ((s : ℚ) / 100)

/-- The clamp of an integer into `[0, 255]` that saturates at both boundaries. -/
def clampByte (z : Int) : Nat := if z < 0 then 0 else if z > 255 then 255 else z.toNat

/-- Transforms of which the RGB-normalize one is the identity, the others writing
zeros. -/
def identityTransforms : ColorTransforms :=
  ⟨fun _ _ _ _ => (0, 0, 0), fun _ _ _ => (0, 0, 0), fun r g b => (r, g, b)⟩

/-! ## `getRGBColorString` -/

/-- The hexadecimal digits of `n`, lowest first and in lower case, as the conversion
`x` of `printf` writes them; every pass divides `n` by 16, so fuel `n` is enough. -/
def hexDigitsRev : Nat → Nat → List Char
  | 0, _ => []
  | fuel + 1, n => if n = 0 then [] else Nat.digitChar (n % 16) :: hexDigitsRev fuel (n / 16)

/-- Modelled from the spec: the conversion `%.6x` of `RVNGString::sprintf`, which is
not among the sources, with the meaning `printf` gives it: the hexadecimal digits of
the value, padded with zeros on the left to at least `precision` digits. -/
def formatHex (precision n : Nat) : List Char :=
  List.replicate (precision - (hexDigitsRev n n).length) '0' ++ (hexDigitsRev n n).reverse

/-- The function `CDRParserState::getRGBColorString`: the result of
`sprintf("#%.6x", _getRGBColor(color))`. -/
def getRGBColorString (icc : ColorTransforms) (m_documentPalette : Palette)
    (color : CDRColor) : String :=
  String.mk ('#' :: formatHex 6 (_getRGBColor icc m_documentPalette color))

/-- The value of a hexadecimal digit character. -/
def hexValue (c : Char) : Nat := if 97 ≤ c.toNat then c.toNat - 87 else c.toNat - 48

/-- The number a string of hexadecimal digits, most significant first, stands for. -/
def parseHex (digits : List Char) : Nat :=
  digits.foldl (fun acc c => 16 * acc + hexValue c) 0

/-- The `k` lowest hexadecimal digits of `n`, most significant first. -/
def fixedHex : Nat → Nat → List Char
  | 0, _ => []
  | k + 1, n => fixedHex k (n / 16) ++ [Nat.digitChar (n % 16)]

/-! ## `setColorTransform` -/

/-- Transforms for the examples whose Lab transform writes `a + 128`, `b + 128` and
`L`, each rounded down. -/
def labProbeTransforms : ColorTransforms :=
  ⟨fun _ _ _ _ => (0, 0, 0),
   fun L a b => ((Int.floor (a + 128)).toNat, (Int.floor (b + 128)).toNat, (Int.floor L).toNat),
   fun _ _ _ => (0, 0, 0)⟩

/-! ## The Pantone channel -/

/-- The channel case `0x00` computes from a pure channel `pure` and a saturation field
`s`: the blend in `double` arithmetic, `cdr_round`, the conversion to `unsigned` and the
comparison with 255. -/
def pantoneChannel (pure s : Nat) : Nat :=
  let tmp := toUnsigned (cdr_round (blendDouble pure (toDouble ((s : ℚ) / 100))))
  if tmp < 255 then tmp % 256 else 255

/-- The exact blend `255*(1 - s/100) + p*s/100` is a tie: an integer plus one half. -/
def IsPantoneTie (p s : Nat) : Prop := (255 - p) * s % 100 = 50

/-- The channel `X` is the exact blend rounded half away from zero or, when the exact
blend is a tie, possibly one less. -/
def RoundsBlend (X p s : Nat) : Prop :=
  (X : Int) = roundHalfAway (pantoneBlend p s) ∨
  (IsPantoneTie p s ∧ (X : Int) + 1 = roundHalfAway (pantoneBlend p s))

/-! ## The bytes of a packed value and the hue loop -/

theorem testBit_byteMask (k i : Nat) : (0xff <<< k).testBit (k + i) = decide (i < 8) := by
  rw [Nat.testBit_shiftLeft]
  have h : (0xff : Nat) = 2 ^ 8 - 1 := by norm_num
  rw [h, Nat.testBit_two_pow_sub_one]
  simp

theorem byte_extract (v k : Nat) : (v &&& (0xff <<< k)) >>> k = v / 2 ^ k % 256 := by
  apply Nat.eq_of_testBit_eq
  intro i
  have h : v / 2 ^ k % 256 = (v >>> k) % 2 ^ 8 := by
    rw [Nat.shiftRight_eq_div_pow]
    norm_num
  rw [h, Nat.testBit_mod_two_pow, Nat.testBit_shiftRight, Nat.testBit_shiftRight,
    Nat.testBit_and, testBit_byteMask, Bool.and_comm]

theorem col0_eq (v : Nat) : v &&& 0xff = v % 256 := Nat.and_pow_two_sub_one_eq_mod v 8

theorem col1_eq (v : Nat) : (v &&& 0xff00) >>> 8 = v / 256 % 256 := byte_extract v 8

theorem col2_eq (v : Nat) : (v &&& 0xff0000) >>> 16 = v / 65536 % 256 := byte_extract v 16

theorem col3_eq (v : Nat) : (v &&& 0xff000000) >>> 24 = v / 16777216 % 256 := byte_extract v 24

theorem hueLoop_eq (fuel : Nat) : ∀ hue : Nat, hue ≤ 360 * fuel + 360 →
    hueLoop fuel hue = if hue ≤ 360 then hue else (hue - 1) % 360 + 1 := by
  induction fuel with
  | zero => intro hue h; simp [hueLoop, h]
  | succ fuel ih =>
    intro hue h
    simp only [hueLoop]
    by_cases hgt : hue > 360
    · rw [if_pos hgt, ih (hue - 360) (by omega)]
      split <;> split <;> omega
    · rw [if_neg hgt]
      split <;> omega

theorem wrapHue_eq (hue : Nat) :
    wrapHue hue = if hue ≤ 360 then hue else (hue - 1) % 360 + 1 :=
  hueLoop_eq hue hue (by omega)

theorem hueLoop_fuel (fuel hue : Nat) (h : hue ≤ fuel) : hueLoop fuel hue = wrapHue hue := by
  rw [wrapHue_eq, hueLoop_eq fuel hue (by omega)]

theorem toUChar_lt (z : Int) : toUChar z < 256 := by
  unfold toUChar
  have h := Int.emod_lt_of_pos z (by norm_num : (0 : Int) < 256)
  have h0 := Int.emod_nonneg z (by norm_num : (256 : Int) ≠ 0)
  omega

theorem readRGB_byte (out : Nat × Nat × Nat) : IsByteTriple (readRGB out) := by
  refine ⟨?_, ?_, ?_⟩ <;> simp only [readRGB] <;> omega

theorem clamp255_lt (t : Nat) : (if t < 255 then t % 256 else 255) < 256 := by
  split <;> omega

theorem pantoneCDR1_byte (col0 col1 col2 col3 : Nat) :
    IsByteTriple (pantoneCDR1 col0 col1 col2 col3) := by
  refine ⟨?_, ?_, ?_⟩ <;> simp only [pantoneCDR1] <;> exact clamp255_lt _

theorem hsb_byte (col0 col1 col2 col3 : Nat) : IsByteTriple (hsb col0 col1 col2 col3) := by
  refine ⟨?_, ?_, ?_⟩ <;> simp only [hsb] <;> exact toUChar_lt _

theorem hls_byte (col0 col1 col2 col3 : Nat) : IsByteTriple (hls col0 col1 col2 col3) := by
  unfold hls
  simp only
  split <;> exact ⟨toUChar_lt _, toUChar_lt _, toUChar_lt _⟩

theorem yiq255_byte (col0 col1 col2 : Nat) : IsByteTriple (yiq255 col0 col1 col2) := by
  refine ⟨?_, ?_, ?_⟩ <;> simp only [yiq255] <;> exact toUChar_lt _

theorem and_ff_lt (v : Nat) : v &&& 0xff < 256 := by
  have h : v &&& 0xff ≤ 0xff := Nat.and_le_right
  omega

theorem switchChannels_byte (icc : ColorTransforms) (colorModel colorValue : Nat) :
    IsByteTriple (switchChannels icc colorModel colorValue) := by
  unfold switchChannels
  simp only
  split
  · exact pantoneCDR1_byte _ _ _ _
  · exact readRGB_byte _
  · exact readRGB_byte _
  · exact readRGB_byte _
  · exact readRGB_byte _
  · exact readRGB_byte _
  · refine ⟨?_, ?_, ?_⟩ <;> simp only <;> omega
  · exact readRGB_byte _
  · exact hsb_byte _ _ _ _
  · exact hls_byte _ _ _ _
  · refine ⟨?_, ?_, ?_⟩ <;> simp only <;> split <;> decide
  · exact ⟨and_ff_lt _, and_ff_lt _, and_ff_lt _⟩
  · exact yiq255_byte _ _ _
  · exact readRGB_byte _
  · exact readRGB_byte _
  · exact ⟨toUChar_lt _, toUChar_lt _, toUChar_lt _⟩
  · exact ⟨by decide, by decide, by decide⟩

theorem pack_lt (r g b : Nat) (hr : r < 256) (hg : g < 256) (hb : b < 256) :
    (r <<< 16) ||| (g <<< 8) ||| b < 2 ^ 24 := by
  apply Nat.or_lt_two_pow
  · apply Nat.or_lt_two_pow
    · rw [Nat.shiftLeft_eq]; omega
    · rw [Nat.shiftLeft_eq]; omega
  · omega

theorem packRGB_eq (t : Nat × Nat × Nat) (h : IsByteTriple t) :
    packRGB t = (t.1 <<< 16) ||| (t.2.1 <<< 8) ||| t.2.2 := by
  unfold packRGB
  have := pack_lt t.1 t.2.1 t.2.2 h.1 h.2.1 h.2.2
  omega

/-- Claim C1: for every colour, every document palette and every triple of ICC
transforms, `_getRGBColor` returns a value of at most `0xFFFFFF`, and that value is
`(R << 16) | (G << 8) | B` for three channels `R`, `G`, `B` of at most 255 each. -/
theorem getRGBColor_range (icc : ColorTransforms) (m_documentPalette : Palette)
    (color : CDRColor) :
    _getRGBColor icc m_documentPalette color ≤ 0xFFFFFF ∧
    ∃ R G B : Nat, R ≤ 255 ∧ G ≤ 255 ∧ B ≤ 255 ∧
      _getRGBColor icc m_documentPalette color = (R <<< 16) ||| (G <<< 8) ||| B := by
  have hb := switchChannels_byte icc (spotLookup m_documentPalette color).1
    (spotLookup m_documentPalette color).2
  have he := packRGB_eq _ hb
  have hl := pack_lt _ _ _ hb.1 hb.2.1 hb.2.2
  refine ⟨?_, _, _, _, Nat.le_of_lt_succ hb.1, Nat.le_of_lt_succ hb.2.1,
    Nat.le_of_lt_succ hb.2.2, he⟩
  show packRGB _ ≤ 0xFFFFFF
  rw [he]
  omega

theorem getRGBColor_def (icc : ColorTransforms) (pal : Palette) (color : CDRColor) :
    _getRGBColor icc pal color =
      packRGB (switchChannels icc (spotLookup pal color).1 (spotLookup pal color).2) := rfl

theorem spotLookup_of_not_spot (pal : Palette) (color : CDRColor)
    (h : color.m_colorModel % 65536 ≠ 0x19) :
    spotLookup pal color = (color.m_colorModel % 65536, color.m_colorValue % 4294967296) := by
  simp [spotLookup, h]

theorem colourIndex_eq (v : Nat) : ((v % 4294967296) &&& 0xffff) % 65536 = v &&& 0xffff := by
  have h1 : ∀ x : Nat, x &&& 0xffff = x % 65536 := fun x =>
    Nat.and_pow_two_sub_one_eq_mod x 16
  rw [h1, h1]
  omega

theorem spotLookup_spot (pal : Palette) (v : Nat) :
    spotLookup pal ⟨0x19, v⟩ =
      match pal (v &&& 0xffff) with
      | some entry => (entry.m_colorModel % 65536, entry.m_colorValue % 4294967296)
      | none => (0x19, v % 4294967296) := by
  simp only [spotLookup, colourIndex_eq]
  rfl

theorem switchChannels_default (icc : ColorTransforms) (colorModel colorValue : Nat)
    (h : colorModel ∉ handledModels ∨ colorModel = 0x19) :
    switchChannels icc colorModel colorValue = (0, 0, 0) := by
  unfold switchChannels
  simp only
  rcases h with h | h
  · simp only [handledModels, List.mem_cons, List.mem_singleton, List.not_mem_nil, not_or] at h
    split <;> first | rfl | omega
  · subst h
    rfl

/-- Claim C2, as the code has it: for every colour whose model code is not one of the
handled codes (`0x00`-`0x09`, `0x0b`, `0x0c`, `0x11`, `0x12`, `0x14`, `0x15`, `0x19`),
`_getRGBColor` returns `0x000000`, whatever the packed value: the `default` branch
leaves `red`, `green` and `blue` at their initial zero. -/
theorem getRGBColor_unhandled (icc : ColorTransforms) (m_documentPalette : Palette)
    (color : CDRColor) (h : color.m_colorModel % 65536 ∉ handledModels) :
    _getRGBColor icc m_documentPalette color = 0 := by
  have hs : color.m_colorModel % 65536 ≠ 0x19 := by
    intro he
    apply h
    rw [he]
    decide
  rw [getRGBColor_def, spotLookup_of_not_spot _ _ hs, switchChannels_default icc _ _ (Or.inl h)]
  rfl

/-- Witness for claim C2: model `0x0a` with packed value `0x123456`. -/
theorem getRGBColor_unhandled_witness :
    (0x0a % 65536 ∉ handledModels) ∧
    _getRGBColor zeroTransforms emptyPalette ⟨0x0a, 0x123456⟩ = 0 :=
  ⟨by decide, getRGBColor_unhandled zeroTransforms emptyPalette ⟨0x0a, 0x123456⟩ (by decide)⟩

/-- Claim C2 fails as stated: model `0x0a` is not handled, and the colour of model
`0x0a` and packed value `0x123456` converts to `0x000000`, not to `0x123456`. -/
theorem unhandled_model_not_identity :
    (0x0a ∉ handledModels) ∧
    _getRGBColor zeroTransforms emptyPalette ⟨0x0a, 0x123456⟩ = 0 ∧
    _getRGBColor zeroTransforms emptyPalette ⟨0x0a, 0x123456⟩ ≠ 0x123456 := by
  decide

/-- Claim C3: when the palette maps index `i` to a colour `c` whose model (the 16-bit
code `_getRGBColor` reads) is not the spot model `0x19`, every spot colour (model `0x19`) whose packed value `v` has
`v & 0xffff = i` converts to what `c` converts to; the upper 16 bits of `v` play no
part. -/
theorem getRGBColor_spot_indirection (icc : ColorTransforms) (m_documentPalette : Palette)
    (i v : Nat) (c : CDRColor) (hpal : m_documentPalette i = some c)
    (hc : c.m_colorModel % 65536 ≠ 0x19) (hv : v &&& 0xffff = i) :
    _getRGBColor icc m_documentPalette ⟨0x19, v⟩ = _getRGBColor icc m_documentPalette c := by
  rw [getRGBColor_def, getRGBColor_def, spotLookup_spot, hv, hpal,
    spotLookup_of_not_spot _ _ hc]

/-- Witness for claim C3: with palette index 5 mapped to
grayscale `0x40`, the spot colour of index 5, here with tint bits set, converts to
`0x404040`, as grayscale `0x40` does. -/
theorem getRGBColor_spot_indirection_witness :
    _getRGBColor zeroTransforms grayPalette ⟨0x19, 0x640005⟩ =
      _getRGBColor zeroTransforms grayPalette ⟨0x09, 0x40⟩ ∧
    _getRGBColor zeroTransforms grayPalette ⟨0x09, 0x40⟩ = 0x404040 :=
  ⟨getRGBColor_spot_indirection zeroTransforms grayPalette 5 0x640005 ⟨0x09, 0x40⟩
    (by decide) (by decide) (by decide), by decide⟩

/-- Claim C4, as the code has it: when the palette does not contain the index
`v & 0xffff`, the spot colour of packed value `v` keeps model `0x19`, which has no
`case` in the `switch`, and `_getRGBColor` returns `0x000000`; it does not fail. -/
theorem getRGBColor_spot_miss (icc : ColorTransforms) (m_documentPalette : Palette)
    (v : Nat) (hpal : m_documentPalette (v &&& 0xffff) = none) :
    _getRGBColor icc m_documentPalette ⟨0x19, v⟩ = 0 := by
  rw [getRGBColor_def, spotLookup_spot, hpal]
  simp only
  rw [switchChannels_default icc _ _ (Or.inr rfl)]
  rfl

/-- Witness for claim C4: packed value `0x123456` and the empty palette. -/
theorem getRGBColor_spot_miss_witness :
    emptyPalette (0x123456 &&& 0xffff) = none ∧
    _getRGBColor zeroTransforms emptyPalette ⟨0x19, 0x123456⟩ = 0 :=
  ⟨rfl, getRGBColor_spot_miss zeroTransforms emptyPalette 0x123456 rfl⟩

/-- Claim C4 fails as stated: with the empty palette the spot colour of packed value
`0x123456` converts to `0x000000`, not to the packed value `0x123456`. -/
theorem spot_miss_not_identity :
    emptyPalette (0x123456 &&& 0xffff) = none ∧
    _getRGBColor zeroTransforms emptyPalette ⟨0x19, 0x123456⟩ ≠ 0x123456 := by
  decide

/-- Claim C5, as the code has it: the spot lookup substitutes once and does not
recurse. When the palette maps the index `v & 0xffff` to a colour that is itself of
the spot model `0x19`, `_getRGBColor` of the spot colour of packed value `v` returns
`0x000000`, whatever the palette holds at the inner index. -/
theorem getRGBColor_spot_single_lookup (icc : ColorTransforms) (m_documentPalette : Palette)
    (v : Nat) (inner : CDRColor) (hpal : m_documentPalette (v &&& 0xffff) = some inner)
    (hin : inner.m_colorModel % 65536 = 0x19) :
    _getRGBColor icc m_documentPalette ⟨0x19, v⟩ = 0 := by
  rw [getRGBColor_def, spotLookup_spot, hpal]
  simp only [hin]
  rw [switchChannels_default icc _ _ (Or.inr rfl)]
  rfl

/-- Witness for claim C5: the palette with 1 mapped to the spot
colour of index 2 and 2 mapped to grayscale `0x40`. -/
theorem getRGBColor_spot_single_lookup_witness :
    chainedPalette (1 &&& 0xffff) = some ⟨0x19, 2⟩ ∧
    _getRGBColor zeroTransforms chainedPalette ⟨0x19, 1⟩ = 0 :=
  ⟨rfl, getRGBColor_spot_single_lookup zeroTransforms chainedPalette 1 ⟨0x19, 2⟩ rfl rfl⟩

/-- Claim C5 fails as stated: in the palette with 1 mapped to the spot colour of index
2 and 2 mapped to grayscale `0x40`, the spot colour of index 1 converts to `0x000000`
while grayscale `0x40` converts to `0x404040`. -/
theorem spot_lookup_not_recursive :
    chainedPalette 1 = some ⟨0x19, 2⟩ ∧ chainedPalette 2 = some ⟨0x09, 0x40⟩ ∧
    _getRGBColor zeroTransforms chainedPalette ⟨0x09, 0x40⟩ = 0x404040 ∧
    _getRGBColor zeroTransforms chainedPalette ⟨0x19, 1⟩ ≠ 0x404040 := by
  decide

/-! ## Properties of `getRecursedStyle` -/

theorem applyStack_eq_foldl {κ ν : Type} (ov : CDRStyle κ ν → CDRStyle κ ν → CDRStyle κ ν)
    (stack : List (CDRStyle κ ν)) (style : CDRStyle κ ν) :
    applyStack ov stack style = stack.foldl ov style := by
  induction stack generalizing style with
  | nil => rfl
  | cons top rest ih => simp only [applyStack, List.foldl_cons, ih]

theorem pushParents_end {κ ν : Type} (m_styles : StyleMap κ ν) (fuel : Nat)
    (stack : List (CDRStyle κ ν)) : pushParents m_styles fuel none stack = some stack := by
  cases fuel <;> rfl

theorem pushParents_chain {κ ν : Type} (m_styles : StyleMap κ ν) (chain : List (CDRStyle κ ν)) :
    ∀ (styleId : Nat), IsParentChain m_styles styleId chain →
    ∀ (fuel : Nat), chain.length ≤ fuel → ∀ stack : List (CDRStyle κ ν),
      pushParents m_styles fuel (m_styles styleId) stack = some (chain.reverse ++ stack) := by
  induction chain with
  | nil => intro styleId h; exact absurd h (by simp [IsParentChain])
  | cons s rest ih =>
    intro styleId h fuel hf stack
    cases fuel with
    | zero => simp at hf
    | succ fuel =>
      cases rest with
      | nil =>
        obtain ⟨hs, hp⟩ := h
        rw [hs]
        simp only [pushParents]
        rcases hp with hp | hp
        · simp [hp, pushParents_end]
        · by_cases h0 : s.m_parentId = 0
          · simp [h0, pushParents_end]
          · simp [h0, hp, pushParents_end]
      | cons t rest =>
        obtain ⟨hs, hp, hrest⟩ := h
        rw [hs]
        simp only [pushParents, hp, ne_eq, not_false_eq_true, if_true]
        rw [ih s.m_parentId hrest fuel (by simpa using hf) (s :: stack)]
        simp

theorem getRecursedStyle_of_chain {κ ν : Type} (ov : CDRStyle κ ν → CDRStyle κ ν → CDRStyle κ ν)
    (m_styles : StyleMap κ ν) (style : CDRStyle κ ν) (styleId : Nat)
    (chain : List (CDRStyle κ ν)) (h : IsParentChain m_styles styleId chain)
    (fuel : Nat) (hf : chain.length ≤ fuel) :
    getRecursedStyle ov m_styles fuel style styleId = some (chain.reverse.foldl ov style) := by
  cases chain with
  | nil => exact absurd h (by simp [IsParentChain])
  | cons s rest =>
    cases rest with
    | nil =>
      obtain ⟨hs, hp⟩ := h
      simp only [getRecursedStyle, hs]
      by_cases h0 : s.m_parentId = 0
      · simp [h0, applyStack]
      · have hn : m_styles s.m_parentId = none := by
          rcases hp with hp | hp
          · exact absurd hp h0
          · exact hp
        simp [h0, hn, pushParents_end, applyStack]
    | cons t rest =>
      obtain ⟨hs, hp, hrest⟩ := h
      simp only [getRecursedStyle, hs, hp, ne_eq, not_false_eq_true, if_true]
      rw [pushParents_chain m_styles (t :: rest) s.m_parentId hrest fuel
        (by simp at hf ⊢; omega) [s]]
      simp [applyStack_eq_foldl]

theorem foldl_attrs {κ ν : Type} (ov : CDRStyle κ ν → CDRStyle κ ν → CDRStyle κ ν)
    (hov : OverwritesSetAttributes ov) (chain : List (CDRStyle κ ν)) (style : CDRStyle κ ν) :
    (chain.reverse.foldl ov style).m_parentId = style.m_parentId ∧
    ∀ a, (chain.reverse.foldl ov style).m_attrs a =
      match nearestSet chain a with
      | some v => some v
      | none => style.m_attrs a := by
  induction chain with
  | nil => exact ⟨rfl, fun a => rfl⟩
  | cons s rest ih =>
    simp only [List.reverse_cons, List.foldl_append, List.foldl_cons, List.foldl_nil]
    refine ⟨((hov _ s).1).trans ih.1, fun a => ?_⟩
    rw [(hov _ s).2 a, ih.2 a]
    simp only [nearestSet, List.findSome?_cons]
    cases s.m_attrs a <;> rfl

theorem CDRStyle.eq_of_fields {κ ν : Type} {s t : CDRStyle κ ν} (hp : s.m_parentId = t.m_parentId)
    (ha : ∀ a, s.m_attrs a = t.m_attrs a) : s = t := by
  cases s
  cases t
  simp only [CDRStyle.mk.injEq]
  exact ⟨hp, funext ha⟩

theorem overrideStyle_overwrites {κ ν : Type} :
    OverwritesSetAttributes (@CDRStyle.overrideStyle κ ν) :=
  fun _ _ => ⟨rfl, fun _ => rfl⟩

theorem chain_of_pushParents {κ ν : Type} (m_styles : StyleMap κ ν) :
    ∀ (fuel styleId : Nat) (stack st : List (CDRStyle κ ν)),
      pushParents m_styles fuel (m_styles styleId) stack = some st →
      m_styles styleId = none ∨ ∃ chain, IsParentChain m_styles styleId chain := by
  intro fuel
  induction fuel with
  | zero =>
    intro styleId stack st h
    cases hm : m_styles styleId with
    | none => exact Or.inl rfl
    | some s => rw [hm] at h; simp [pushParents] at h
  | succ fuel ih =>
    intro styleId stack st h
    cases hm : m_styles styleId with
    | none => exact Or.inl rfl
    | some s =>
      right
      rw [hm] at h
      simp only [pushParents] at h
      by_cases h0 : s.m_parentId = 0
      · exact ⟨[s], hm, Or.inl h0⟩
      · simp only [ne_eq, h0, not_false_eq_true, if_true] at h
        rcases ih s.m_parentId (s :: stack) st h with hn | ⟨chain, hc⟩
        · exact ⟨[s], hm, Or.inr hn⟩
        · cases chain with
          | nil => exact absurd hc (by simp [IsParentChain])
          | cons t rest => exact ⟨s :: t :: rest, hm, h0, hc⟩

theorem pushParents_self_parent {κ ν : Type} (m_styles : StyleMap κ ν) (s : CDRStyle κ ν)
    (hp : s.m_parentId ≠ 0) (hs : m_styles s.m_parentId = some s) :
    ∀ (fuel : Nat) (stack : List (CDRStyle κ ν)),
      pushParents m_styles fuel (some s) stack = none := by
  intro fuel
  induction fuel with
  | zero => intro stack; rfl
  | succ fuel ih =>
    intro stack
    simp only [pushParents, ne_eq, hp, not_false_eq_true, if_true, hs]
    exact ih (s :: stack)

theorem pushParents_mutual_parent {κ ν : Type} (m_styles : StyleMap κ ν) (s t : CDRStyle κ ν)
    (hps : s.m_parentId ≠ 0) (hpt : t.m_parentId ≠ 0)
    (hs : m_styles s.m_parentId = some t) (ht : m_styles t.m_parentId = some s) :
    ∀ (fuel : Nat) (stack : List (CDRStyle κ ν)),
      pushParents m_styles fuel (some s) stack = none ∧
      pushParents m_styles fuel (some t) stack = none := by
  intro fuel
  induction fuel with
  | zero => intro stack; exact ⟨rfl, rfl⟩
  | succ fuel ih =>
    intro stack
    constructor
    · simp only [pushParents, ne_eq, hps, not_false_eq_true, if_true, hs]
      exact (ih (s :: stack)).2
    · simp only [pushParents, ne_eq, hpt, not_false_eq_true, if_true, ht]
      exact (ih (t :: stack)).1

/-- Claim C6: when the parent chain from `styleId` is finite, `chain` listing its
records from the requested one up to the root-most one, `getRecursedStyle` returns
(on any fuel of at least the chain's length) the initial style with `overrideStyle`
applied once per record of the chain in root-to-leaf order, the root-most ancestor
first and the requested record last. Consequently, when `overrideStyle` overwrites
exactly the attributes the overriding record sets, each attribute of the result has
the value of the record nearest to the leaf that sets it, and the initial style's
value when no record of the chain sets it. -/
theorem getRecursedStyle_root_to_leaf {κ ν : Type} (ov : CDRStyle κ ν → CDRStyle κ ν → CDRStyle κ ν)
    (m_styles : StyleMap κ ν) (style : CDRStyle κ ν) (styleId : Nat)
    (chain : List (CDRStyle κ ν)) (h : IsParentChain m_styles styleId chain)
    (fuel : Nat) (hf : chain.length ≤ fuel) :
    getRecursedStyle ov m_styles fuel style styleId = some (chain.reverse.foldl ov style) ∧
    (OverwritesSetAttributes ov → ∀ a,
      (chain.reverse.foldl ov style).m_attrs a =
        match nearestSet chain a with
        | some v => some v
        | none => style.m_attrs a) :=
  ⟨getRecursedStyle_of_chain ov m_styles style styleId chain h fuel hf,
   fun hov => (foldl_attrs ov hov chain style).2⟩

/-- Claim C7: when `styleId` is not a key of the style map, `getRecursedStyle`
applies no override and returns the style it was given, unchanged. -/
theorem getRecursedStyle_missing_id {κ ν : Type} (ov : CDRStyle κ ν → CDRStyle κ ν → CDRStyle κ ν)
    (m_styles : StyleMap κ ν) (fuel : Nat) (style : CDRStyle κ ν) (styleId : Nat)
    (h : m_styles styleId = none) :
    getRecursedStyle ov m_styles fuel style styleId = some style := by
  simp [getRecursedStyle, h]

/-- Claim C8: when the record of `styleId` has a parent id that is zero, or a parent
id that is not a key of the map, `getRecursedStyle` returns the initial style
overridden once, by that record alone. -/
theorem getRecursedStyle_missing_parent {κ ν : Type} (ov : CDRStyle κ ν → CDRStyle κ ν → CDRStyle κ ν)
    (m_styles : StyleMap κ ν) (fuel : Nat) (style : CDRStyle κ ν) (styleId : Nat)
    (s : CDRStyle κ ν) (hs : m_styles styleId = some s)
    (hp : s.m_parentId = 0 ∨ (s.m_parentId ≠ 0 ∧ m_styles s.m_parentId = none)) :
    getRecursedStyle ov m_styles fuel style styleId = some (ov style s) := by
  simp only [getRecursedStyle, hs]
  rcases hp with hp | ⟨h0, hn⟩
  · simp [hp, applyStack]
  · simp [h0, hn, pushParents_end, applyStack]

/-- Claim C9, as the code has it: `getRecursedStyle` returns exactly when `styleId`
is not a key of the style map or the parent chain from `styleId` is finite; the
parent walk has no cycle protection. -/
theorem getRecursedStyle_returns_iff {κ ν : Type} (ov : CDRStyle κ ν → CDRStyle κ ν → CDRStyle κ ν)
    (m_styles : StyleMap κ ν) (style : CDRStyle κ ν) (styleId : Nat) :
    (∃ fuel, (getRecursedStyle ov m_styles fuel style styleId).isSome = true) ↔
      (m_styles styleId = none ∨ ∃ chain, IsParentChain m_styles styleId chain) := by
  constructor
  · rintro ⟨fuel, h⟩
    cases hm : m_styles styleId with
    | none => exact Or.inl rfl
    | some s =>
      right
      simp only [getRecursedStyle, hm] at h
      by_cases h0 : s.m_parentId = 0
      · exact ⟨[s], hm, Or.inl h0⟩
      · simp only [ne_eq, h0, not_false_eq_true, if_true] at h
        cases hw : pushParents m_styles fuel (m_styles s.m_parentId) [s] with
        | none => rw [hw] at h; simp at h
        | some st =>
          rcases chain_of_pushParents m_styles fuel s.m_parentId [s] st hw with hn | ⟨chain, hc⟩
          · exact ⟨[s], hm, Or.inr hn⟩
          · cases chain with
            | nil => exact absurd hc (by simp [IsParentChain])
            | cons t rest => exact ⟨s :: t :: rest, hm, h0, hc⟩
  · rintro (h | ⟨chain, h⟩)
    · exact ⟨0, by simp [getRecursedStyle, h]⟩
    · exact ⟨chain.length, by
        rw [getRecursedStyle_of_chain ov m_styles style styleId chain h chain.length le_rfl]
        rfl⟩

/-- Claim C10: when the parent chain from `styleId` is finite and `overrideStyle`
overwrites exactly the attributes the overriding record sets, `getRecursedStyle`
returns a style `r`, and resolving the same id again, starting from `r`, returns `r`
again. -/
theorem getRecursedStyle_idempotent {κ ν : Type} (ov : CDRStyle κ ν → CDRStyle κ ν → CDRStyle κ ν)
    (hov : OverwritesSetAttributes ov) (m_styles : StyleMap κ ν) (style : CDRStyle κ ν)
    (styleId : Nat) (chain : List (CDRStyle κ ν)) (h : IsParentChain m_styles styleId chain)
    (fuel : Nat) (hf : chain.length ≤ fuel) :
    ∃ r, getRecursedStyle ov m_styles fuel style styleId = some r ∧
      getRecursedStyle ov m_styles fuel r styleId = some r := by
  refine ⟨chain.reverse.foldl ov style,
    getRecursedStyle_of_chain ov m_styles style styleId chain h fuel hf, ?_⟩
  rw [getRecursedStyle_of_chain ov m_styles _ styleId chain h fuel hf]
  congr 1
  have h1 := foldl_attrs ov hov chain style
  have h2 := foldl_attrs ov hov chain (chain.reverse.foldl ov style)
  apply CDRStyle.eq_of_fields h2.1
  intro a
  rw [h2.2 a, h1.2 a]
  cases nearestSet chain a <;> rfl

/-! ## The claims on concrete style maps -/

theorem demoChild_chain : IsParentChain demoStyles 2 [demoChild, demoRoot] :=
  ⟨rfl, by decide, rfl, Or.inl rfl⟩

theorem demoSecondChild_chain : IsParentChain demoStyles 3 [demoSecondChild, demoRoot] :=
  ⟨rfl, by decide, rfl, Or.inl rfl⟩

/-- Witness for claim C6: the root sets `A` to red; its child that sets only `B`, to
blue, resolves to `A` red and `B` blue; its child that sets `A` to green resolves to
`A` green. -/
theorem getRecursedStyle_root_to_leaf_witness :
    (∃ r, getRecursedStyle CDRStyle.overrideStyle demoStyles 2 emptyStyle 2 = some r ∧
      r.m_attrs DemoAttr.A = some DemoValue.red ∧ r.m_attrs DemoAttr.B = some DemoValue.blue) ∧
    (∃ r, getRecursedStyle CDRStyle.overrideStyle demoStyles 2 emptyStyle 3 = some r ∧
      r.m_attrs DemoAttr.A = some DemoValue.green ∧ r.m_attrs DemoAttr.B = none) :=
  ⟨⟨_, (getRecursedStyle_root_to_leaf CDRStyle.overrideStyle demoStyles emptyStyle 2
      [demoChild, demoRoot] demoChild_chain 2 (by decide)).1, rfl, rfl⟩,
   ⟨_, (getRecursedStyle_root_to_leaf CDRStyle.overrideStyle demoStyles emptyStyle 3
      [demoSecondChild, demoRoot] demoSecondChild_chain 2 (by decide)).1, rfl, rfl⟩⟩

/-- Witness for claim C7: 9 is not a key of the example map, and the empty style
comes back empty. -/
theorem getRecursedStyle_missing_id_witness :
    demoStyles 9 = none ∧
    getRecursedStyle CDRStyle.overrideStyle demoStyles 0 emptyStyle 9 = some emptyStyle :=
  ⟨rfl, getRecursedStyle_missing_id CDRStyle.overrideStyle demoStyles 0 emptyStyle 9 rfl⟩

/-- Witness for claim C8: style 4 names the absent style 7 as parent, style 1 has
parent id zero; each resolves with its own overrides only. -/
theorem getRecursedStyle_missing_parent_witness :
    (demoStyles 4 = some demoOrphan ∧ demoStyles demoOrphan.m_parentId = none ∧
      getRecursedStyle CDRStyle.overrideStyle demoStyles 0 emptyStyle 4 =
        some (CDRStyle.overrideStyle emptyStyle demoOrphan)) ∧
    (demoStyles 1 = some demoRoot ∧ demoRoot.m_parentId = 0 ∧
      getRecursedStyle CDRStyle.overrideStyle demoStyles 0 emptyStyle 1 =
        some (CDRStyle.overrideStyle emptyStyle demoRoot)) :=
  ⟨⟨rfl, rfl, getRecursedStyle_missing_parent CDRStyle.overrideStyle demoStyles 0 emptyStyle 4
      demoOrphan rfl (Or.inr ⟨by decide, rfl⟩)⟩,
   ⟨rfl, rfl, getRecursedStyle_missing_parent CDRStyle.overrideStyle demoStyles 0 emptyStyle 1
      demoRoot rfl (Or.inl rfl)⟩⟩

/-- Witness for claim C9: the call on the child style 2 of the example map returns. -/
theorem getRecursedStyle_returns_iff_witness :
    ∃ fuel, (getRecursedStyle CDRStyle.overrideStyle demoStyles fuel emptyStyle 2).isSome = true :=
  (getRecursedStyle_returns_iff CDRStyle.overrideStyle demoStyles emptyStyle 2).mpr
    (Or.inr ⟨[demoChild, demoRoot], demoChild_chain⟩)

/-- Claim C9 fails as stated: on the map whose record 1 names itself as parent, and
on the map whose records 1 and 2 name each other, the call for style 1 returns on no
amount of fuel: the parent walk never ends. -/
theorem cyclic_parent_never_returns :
    (¬ ∃ fuel,
      (getRecursedStyle CDRStyle.overrideStyle selfParentStyles fuel emptyStyle 1).isSome = true) ∧
    (¬ ∃ fuel,
      (getRecursedStyle CDRStyle.overrideStyle mutualParentStyles fuel emptyStyle 1).isSome = true) := by
  constructor
  · rintro ⟨fuel, h⟩
    have hw : getRecursedStyle CDRStyle.overrideStyle selfParentStyles fuel emptyStyle 1 = none := by
      show (pushParents selfParentStyles fuel (some ⟨1, fun _ => none⟩) [⟨1, fun _ => none⟩]).map _
        = none
      rw [pushParents_self_parent selfParentStyles ⟨1, fun _ => none⟩ (by decide) rfl]
      rfl
    rw [hw] at h
    exact absurd h (by decide)
  · rintro ⟨fuel, h⟩
    have hw : getRecursedStyle CDRStyle.overrideStyle mutualParentStyles fuel emptyStyle 1 = none := by
      show (pushParents mutualParentStyles fuel (some ⟨1, fun _ => none⟩) [⟨2, fun _ => none⟩]).map _
        = none
      rw [(pushParents_mutual_parent mutualParentStyles ⟨1, fun _ => none⟩ ⟨2, fun _ => none⟩
        (by decide) (by decide) rfl rfl fuel _).1]
      rfl
    rw [hw] at h
    exact absurd h (by decide)

/-- Witness for claim C10: resolving style 3 of the example map from the empty style,
then resolving it again from the result, gives the same style. -/
theorem getRecursedStyle_idempotent_witness :
    ∃ r, getRecursedStyle CDRStyle.overrideStyle demoStyles 2 emptyStyle 3 = some r ∧
      getRecursedStyle CDRStyle.overrideStyle demoStyles 2 r 3 = some r :=
  getRecursedStyle_idempotent CDRStyle.overrideStyle overrideStyle_overwrites demoStyles
    emptyStyle 3 [demoSecondChild, demoRoot] demoSecondChild_chain 2 (by decide)

/-! ## Rounding, bytes and direct conversion -/

theorem cdr_round_eq_roundHalfAway (q : ℚ) : cdr_round q = roundHalfAway q := by
  unfold cdr_round roundHalfAway
  by_cases h : 0 < q
  · rw [if_pos h, if_pos h.le]
  · rw [if_neg h]
    by_cases h0 : 0 ≤ q
    · have hq : q = 0 := le_antisymm (not_lt.mp h) h0
      subst hq
      rw [if_pos le_rfl]
      norm_num
    · rw [if_neg h0, ← Int.ceil_neg]
      congr 1
      ring

theorem cdr_round_bounds (q : ℚ) (a b : Int) (ha : (a : ℚ) ≤ q) (hb : q ≤ (b : ℚ)) :
    a ≤ cdr_round q ∧ cdr_round q ≤ b := by
  unfold cdr_round
  split
  · constructor
    · apply Int.le_floor.mpr
      linarith
    · have h : Int.floor (q + 1 / 2) < b + 1 := by
        apply Int.floor_lt.mpr
        push_cast
        linarith
      omega
  · constructor
    · have h : a - 1 < Int.ceil (q - 1 / 2) := by
        apply Int.lt_ceil.mpr
        push_cast
        linarith
      omega
    · apply Int.ceil_le.mpr
      linarith

theorem shl8_or (a b : Nat) (hb : b < 256) : (a <<< 8) ||| b = 256 * a + b := by
  rw [Nat.shiftLeft_eq, Nat.mul_comm]
  exact (Nat.mul_add_lt_is_or (by simpa using hb) a).symm

theorem pack_eq_add (r g b : Nat) (hg : g < 256) (hb : b < 256) :
    (r <<< 16) ||| (g <<< 8) ||| b = 65536 * r + 256 * g + b := by
  have e1 : r <<< 16 = 2 ^ 16 * r := by rw [Nat.shiftLeft_eq, Nat.mul_comm]
  have e2 : g <<< 8 = 256 * g := by rw [Nat.shiftLeft_eq]; omega
  have e3 : 2 ^ 16 * r + 256 * g = 2 ^ 8 * (256 * r + g) := by omega
  rw [e1, e2, ← Nat.mul_add_lt_is_or (by omega : 256 * g < 2 ^ 16) r, e3,
    ← Nat.mul_add_lt_is_or (by omega : b < 2 ^ 8) (256 * r + g)]
  omega

theorem getRGBColor_direct (icc : ColorTransforms) (pal : Palette) (m v : Nat)
    (hm : m < 65536) (hs : m ≠ 0x19) :
    _getRGBColor icc pal ⟨m, v⟩ = packRGB (switchChannels icc m (v % 4294967296)) := by
  have hmod : m % 65536 = m := Nat.mod_eq_of_lt hm
  rw [getRGBColor_def, spotLookup_of_not_spot pal ⟨m, v⟩ (by simpa [hmod] using hs)]
  simp only [hmod]

theorem packedValue_bytes (col0 col1 col2 col3 : Nat)
    (h0 : col0 < 256) (h1 : col1 < 256) (h2 : col2 < 256) (h3 : col3 < 256) :
    packedValue col0 col1 col2 col3 % 4294967296 % 256 = col0 ∧
    packedValue col0 col1 col2 col3 % 4294967296 / 256 % 256 = col1 ∧
    packedValue col0 col1 col2 col3 % 4294967296 / 65536 % 256 = col2 ∧
    packedValue col0 col1 col2 col3 % 4294967296 / 16777216 % 256 = col3 := by
  unfold packedValue
  omega

/-! ## Binary64 rounding: its relative error -/

theorem bitLength_zero (fuel : Nat) : bitLength fuel 0 = 0 := by
  cases fuel <;> simp [bitLength]

theorem bitLength_spec (fuel : Nat) : ∀ n : Nat, 0 < n → n ≤ fuel →
    1 ≤ bitLength fuel n ∧ 2 ^ (bitLength fuel n - 1) ≤ n ∧ n < 2 ^ bitLength fuel n := by
  induction fuel with
  | zero => intro n h0 hf; omega
  | succ fuel ih =>
    intro n h0 hf
    have hn : n ≠ 0 := by omega
    simp only [bitLength, hn, if_false]
    by_cases h1 : n / 2 = 0
    · rw [h1, bitLength_zero]
      have : n = 1 := by omega
      subst this
      simp
    · obtain ⟨hb, hlo, hhi⟩ := ih (n / 2) (by omega) (by omega)
      have hp : 2 ^ bitLength fuel (n / 2) = 2 * 2 ^ (bitLength fuel (n / 2) - 1) := by
        rw [← pow_succ']
        congr 1
        omega
      refine ⟨by omega, ?_, ?_⟩
      · rw [Nat.add_sub_cancel, hp]
        omega
      · rw [pow_succ]
        omega

theorem pow2_eq_zpow (e : Int) : pow2 e = (2 : ℚ) ^ e := by
  unfold pow2
  split
  · rename_i h
    conv_rhs => rw [← Int.toNat_of_nonneg h]
    rw [zpow_natCast]
  · rename_i h
    have hneg : 0 ≤ -e := by omega
    have he : e = -((-e).toNat : Int) := by rw [Int.toNat_of_nonneg hneg]; ring
    conv_rhs => rw [he]
    rw [zpow_neg, zpow_natCast, one_div]

theorem pow2_pos (e : Int) : 0 < pow2 e := by
  rw [pow2_eq_zpow]
  positivity

theorem pow2_sub_52 (e : Int) : pow2 (e - 52) = pow2 e / 2 ^ 52 := by
  rw [pow2_eq_zpow, pow2_eq_zpow, zpow_sub₀ (by norm_num : (2 : ℚ) ≠ 0)]
  norm_num

theorem abs_eq_natAbs_div (q : ℚ) : |q| = (q.num.natAbs : ℚ) / (q.den : ℚ) := by
  conv_lhs => rw [← Rat.num_div_den q]
  rw [abs_div, Nat.abs_cast, ← Int.cast_abs, Int.abs_eq_natAbs, Int.cast_natCast]

theorem binade_le (q : ℚ) (hq : q ≠ 0) : pow2 (binade q) ≤ |q| := by
  unfold binade
  simp only
  split
  · assumption
  · have ha : 0 < q.num.natAbs := Int.natAbs_pos.mpr (Rat.num_ne_zero.mpr hq)
    have hb : 0 < q.den := q.den_pos
    obtain ⟨ha1, halo, -⟩ := bitLength_spec _ _ ha le_rfl
    obtain ⟨-, -, hbhi⟩ := bitLength_spec _ _ hb le_rfl
    rw [abs_eq_natAbs_div, pow2_eq_zpow, le_div_iff₀ (by exact_mod_cast hb)]
    have h1 : ((2 : ℚ) ^ (bitLength q.num.natAbs q.num.natAbs - 1)) ≤ (q.num.natAbs : ℚ) := by
      exact_mod_cast halo
    have h2 : (q.den : ℚ) ≤ (2 : ℚ) ^ (bitLength q.den q.den) := by
      exact_mod_cast hbhi.le
    have h3 : (2 : ℚ) ^ ((bitLength q.num.natAbs q.num.natAbs : Int) -
        (bitLength q.den q.den : Int) - 1) * (2 : ℚ) ^ (bitLength q.den q.den) =
        (2 : ℚ) ^ (bitLength q.num.natAbs q.num.natAbs - 1) := by
      rw [← zpow_natCast, ← zpow_add₀ (by norm_num : (2 : ℚ) ≠ 0), ← zpow_natCast]
      congr 1
      omega
    calc (2 : ℚ) ^ ((bitLength q.num.natAbs q.num.natAbs : Int) -
          (bitLength q.den q.den : Int) - 1) * (q.den : ℚ)
        ≤ (2 : ℚ) ^ ((bitLength q.num.natAbs q.num.natAbs : Int) -
          (bitLength q.den q.den : Int) - 1) * (2 : ℚ) ^ (bitLength q.den q.den) :=
          mul_le_mul_of_nonneg_left h2 (by positivity)
      _ = (2 : ℚ) ^ (bitLength q.num.natAbs q.num.natAbs - 1) := h3
      _ ≤ (q.num.natAbs : ℚ) := h1

theorem roundHalfEven_error (x : ℚ) : |(roundHalfEven x : ℚ) - x| ≤ 1 / 2 := by
  have h1 := Int.floor_le x
  have h2 := Int.lt_floor_add_one x
  unfold roundHalfEven
  rw [abs_le]
  split
  · constructor <;> linarith
  · split
    · push_cast
      constructor <;> linarith
    · have he : x - (Int.floor x : ℚ) = 1 / 2 := by
        rename_i ha hb
        exact le_antisymm (not_lt.mp hb) (not_lt.mp ha)
      split
      · constructor <;> linarith
      · push_cast
        constructor <;> linarith

theorem toDouble_error (q : ℚ) : |toDouble q - q| ≤ |q| / 2 ^ 53 := by
  unfold toDouble
  split
  · rename_i h
    subst h
    simp
  · rename_i hq
    have hE := pow2_pos (binade q - 52)
    have hr := roundHalfEven_error (q / pow2 (binade q - 52))
    have hb := binade_le q hq
    have e1 : (roundHalfEven (q / pow2 (binade q - 52)) : ℚ) * pow2 (binade q - 52) - q =
        ((roundHalfEven (q / pow2 (binade q - 52)) : ℚ) - q / pow2 (binade q - 52)) *
          pow2 (binade q - 52) := by
      field_simp
    rw [e1, abs_mul, abs_of_pos hE]
    calc |(roundHalfEven (q / pow2 (binade q - 52)) : ℚ) - q / pow2 (binade q - 52)| *
          pow2 (binade q - 52)
        ≤ 1 / 2 * pow2 (binade q - 52) := mul_le_mul_of_nonneg_right hr hE.le
      _ = pow2 (binade q) / 2 ^ 53 := by rw [pow2_sub_52]; ring
      _ ≤ |q| / 2 ^ 53 := div_le_div_of_nonneg_right hb (by positivity)

theorem unitRoundoff_pos : 0 < unitRoundoff := by
  unfold unitRoundoff
  positivity

theorem unitRoundoff_small : unitRoundoff ≤ 1 / 1000000000000 := by
  unfold unitRoundoff
  norm_num

theorem toDouble_near (q M : ℚ) (hlo : -M ≤ q) (hhi : q ≤ M) :
    q - M * unitRoundoff ≤ toDouble q ∧ toDouble q ≤ q + M * unitRoundoff := by
  have h := toDouble_error q
  have hM : |q| ≤ M := abs_le.mpr ⟨hlo, hhi⟩
  have h2 : |q| / 2 ^ 53 ≤ M * unitRoundoff := by
    unfold unitRoundoff
    rw [mul_one_div]
    exact div_le_div_of_nonneg_right hM (by positivity)
  have h3 := abs_le.mp (h.trans h2)
  constructor <;> linarith [h3.1, h3.2]

theorem binade_lt (q : ℚ) (hq : q ≠ 0) : |q| < pow2 (binade q + 1) := by
  have ha : 0 < q.num.natAbs := Int.natAbs_pos.mpr (Rat.num_ne_zero.mpr hq)
  have hb : 0 < q.den := q.den_pos
  obtain ⟨-, -, hahi⟩ := bitLength_spec _ _ ha le_rfl
  obtain ⟨hb1, hblo, -⟩ := bitLength_spec _ _ hb le_rfl
  unfold binade
  simp only
  split
  · rw [abs_eq_natAbs_div, pow2_eq_zpow, div_lt_iff₀ (by exact_mod_cast hb)]
    have h1 : (q.num.natAbs : ℚ) < (2 : ℚ) ^ (bitLength q.num.natAbs q.num.natAbs) := by
      exact_mod_cast hahi
    have h2 : (2 : ℚ) ^ (bitLength q.den q.den - 1) ≤ (q.den : ℚ) := by
      exact_mod_cast hblo
    have h3 : (2 : ℚ) ^ ((bitLength q.num.natAbs q.num.natAbs : Int) -
        (bitLength q.den q.den : Int) + 1) * (2 : ℚ) ^ (bitLength q.den q.den - 1) =
        (2 : ℚ) ^ (bitLength q.num.natAbs q.num.natAbs) := by
      rw [← zpow_natCast, ← zpow_add₀ (by norm_num : (2 : ℚ) ≠ 0), ← zpow_natCast]
      congr 1
      omega
    calc (q.num.natAbs : ℚ) < (2 : ℚ) ^ (bitLength q.num.natAbs q.num.natAbs) := h1
      _ = (2 : ℚ) ^ ((bitLength q.num.natAbs q.num.natAbs : Int) -
          (bitLength q.den q.den : Int) + 1) * (2 : ℚ) ^ (bitLength q.den q.den - 1) := h3.symm
      _ ≤ (2 : ℚ) ^ ((bitLength q.num.natAbs q.num.natAbs : Int) -
          (bitLength q.den q.den : Int) + 1) * (q.den : ℚ) :=
          mul_le_mul_of_nonneg_left h2 (by positivity)
  · rename_i h
    rw [sub_add_cancel]
    exact not_le.mp h

/-! ## The Pantone blend in binary64 -/

theorem blend_chain (p x u sat t1 t2 t3 t4 : ℚ) (hp0 : 0 ≤ p) (hp1 : p ≤ 255)
    (hu0 : 0 ≤ u) (hu1 : u ≤ 1 / 1000000000000)
    (h1 : x - 1 * u ≤ sat ∧ sat ≤ x + 1 * u)
    (h2 : 1 - sat - 2 * u ≤ t1 ∧ t1 ≤ 1 - sat + 2 * u)
    (h3 : 255 * t1 - 1024 * u ≤ t2 ∧ t2 ≤ 255 * t1 + 1024 * u)
    (h4 : p * sat - 1024 * u ≤ t3 ∧ t3 ≤ p * sat + 1024 * u)
    (h5 : t2 + t3 - 1024 * u ≤ t4 ∧ t4 ≤ t2 + t3 + 1024 * u) :
    |t4 - (255 * (1 - x) + p * x)| ≤ 1 / 1000 := by
  have hm1 : p * sat ≤ p * (x + 1 * u) := mul_le_mul_of_nonneg_left h1.2 hp0
  have hm2 : p * (x - 1 * u) ≤ p * sat := mul_le_mul_of_nonneg_left h1.1 hp0
  have hpu : p * u ≤ 255 * u := mul_le_mul_of_nonneg_right hp1 hu0
  have hpu0 : 0 ≤ p * u := mul_nonneg hp0 hu0
  rw [abs_le]
  constructor <;> linarith [h2.1, h2.2, h3.1, h3.2, h4.1, h4.2, h5.1, h5.2]

theorem blendDouble_near (p s : Nat) (hp : p ≤ 255) (hs : s ≤ 100) :
    |blendDouble p (toDouble ((s : ℚ) / 100)) - pantoneBlend p s| ≤ 1 / 1000 := by
  have hp0 : (0 : ℚ) ≤ (p : ℚ) := by positivity
  have hp1 : (p : ℚ) ≤ 255 := by exact_mod_cast hp
  have hx0 : (0 : ℚ) ≤ (s : ℚ) / 100 := by positivity
  have hx1 : (s : ℚ) / 100 ≤ 1 := by
    have : (s : ℚ) ≤ 100 := by exact_mod_cast hs
    linarith
  have hu0 := unitRoundoff_pos.le
  have hu1 := unitRoundoff_small
  have h1 := toDouble_near ((s : ℚ) / 100) 1 (by linarith) hx1
  have h2 := toDouble_near (1 - toDouble ((s : ℚ) / 100)) 2
    (by linarith [h1.1, h1.2]) (by linarith [h1.1, h1.2])
  have h3 := toDouble_near (255 * toDouble (1 - toDouble ((s : ℚ) / 100))) 1024
    (by linarith [h1.1, h1.2, h2.1, h2.2]) (by linarith [h1.1, h1.2, h2.1, h2.2])
  have hm1 : (p : ℚ) * toDouble ((s : ℚ) / 100) ≤ (p : ℚ) * ((s : ℚ) / 100 + 1 * unitRoundoff) :=
    mul_le_mul_of_nonneg_left h1.2 hp0
  have hm2 : (p : ℚ) * ((s : ℚ) / 100 - 1 * unitRoundoff) ≤ (p : ℚ) * toDouble ((s : ℚ) / 100) :=
    mul_le_mul_of_nonneg_left h1.1 hp0
  have hpx : (p : ℚ) * ((s : ℚ) / 100) ≤ 255 * 1 := mul_le_mul hp1 hx1 hx0 (by norm_num)
  have hpx0 : 0 ≤ (p : ℚ) * ((s : ℚ) / 100) := mul_nonneg hp0 hx0
  have hpu : (p : ℚ) * unitRoundoff ≤ 255 * unitRoundoff :=
    mul_le_mul_of_nonneg_right hp1 hu0
  have hpu0 : 0 ≤ (p : ℚ) * unitRoundoff := mul_nonneg hp0 hu0
  have h4 := toDouble_near ((p : ℚ) * toDouble ((s : ℚ) / 100)) 1024
    (by linarith) (by linarith)
  have h5 := toDouble_near (toDouble (255 * toDouble (1 - toDouble ((s : ℚ) / 100))) +
      toDouble ((p : ℚ) * toDouble ((s : ℚ) / 100))) 1024
    (by linarith [h1.1, h1.2, h2.1, h2.2, h3.1, h3.2, h4.1, h4.2])
    (by linarith [h1.1, h1.2, h2.1, h2.2, h3.1, h3.2, h4.1, h4.2])
  exact blend_chain (p : ℚ) ((s : ℚ) / 100) unitRoundoff _ _ _ _ _ hp0 hp1 hu0 hu1
    h1 h2 h3 h4 h5

theorem cdr_round_near (N : Int) (hN : 0 ≤ N) (d : ℚ)
    (hd : |d - (N : ℚ) / 100| ≤ 1 / 1000) :
    (100 * roundHalfAway ((N : ℚ) / 100) ≤ N + 50 ∧
      N + 50 < 100 * roundHalfAway ((N : ℚ) / 100) + 100) ∧
    (cdr_round d = roundHalfAway ((N : ℚ) / 100) ∨
      (N % 100 = 50 ∧ cdr_round d + 1 = roundHalfAway ((N : ℚ) / 100))) := by
  have hq : (0 : ℚ) ≤ (N : ℚ) / 100 := by
    have : (0 : ℚ) ≤ (N : ℚ) := by exact_mod_cast hN
    positivity
  have hk : roundHalfAway ((N : ℚ) / 100) = Int.floor ((N : ℚ) / 100 + 1 / 2) := by
    unfold roundHalfAway
    rw [if_pos hq]
  obtain ⟨hd1, hd2⟩ := abs_le.mp hd
  generalize roundHalfAway ((N : ℚ) / 100) = k at hk ⊢
  obtain ⟨hk1, hk2⟩ := Int.floor_eq_iff.mp hk.symm
  have hi1 : 100 * k ≤ N + 50 := by
    have : (100 : ℚ) * (k : ℚ) ≤ (N : ℚ) + 50 := by linarith
    exact_mod_cast this
  have hi2 : N + 50 < 100 * k + 100 := by
    have : (N : ℚ) + 50 < 100 * (k : ℚ) + 100 := by linarith
    exact_mod_cast this
  refine ⟨⟨hi1, hi2⟩, ?_⟩
  by_cases htie : N + 50 = 100 * k
  · -- the blend is a tie
    have hq2 : (N : ℚ) / 100 = (k : ℚ) - 1 / 2 := by
      have : (N : ℚ) + 50 = 100 * (k : ℚ) := by exact_mod_cast htie
      linarith
    have hk0 : (1 : ℚ) ≤ (k : ℚ) := by
      have : (1 : Int) ≤ k := by omega
      exact_mod_cast this
    have hdpos : 0 < d := by linarith
    unfold cdr_round
    rw [if_pos hdpos]
    by_cases hge : (k : ℚ) ≤ d + 1 / 2
    · left
      exact Int.floor_eq_iff.mpr ⟨hge, by linarith⟩
    · right
      refine ⟨by omega, ?_⟩
      have : Int.floor (d + 1 / 2) = k - 1 :=
        Int.floor_eq_iff.mpr ⟨by push_cast; linarith, by push_cast; linarith⟩
      omega
  · left
    have hi3 : 100 * k + 1 ≤ N + 50 := by omega
    have hq3 : (k : ℚ) + 1 / 100 ≤ (N : ℚ) / 100 + 1 / 2 := by
      have : (100 : ℚ) * (k : ℚ) + 1 ≤ (N : ℚ) + 50 := by exact_mod_cast hi3
      linarith
    have hi4 : N + 50 ≤ 100 * k + 99 := by omega
    have hq4 : (N : ℚ) / 100 + 1 / 2 ≤ (k : ℚ) + 99 / 100 := by
      have : (N : ℚ) + 50 ≤ 100 * (k : ℚ) + 99 := by exact_mod_cast hi4
      linarith
    unfold cdr_round
    split
    · exact Int.floor_eq_iff.mpr ⟨by linarith, by linarith⟩
    · rename_i hdn
      have hd0 : d ≤ 0 := not_lt.mp hdn
      have hk0 : k = 0 := by
        have h1 : (k : ℚ) < 1 := by linarith
        have h2 : (-1 : ℚ) < (k : ℚ) := by linarith
        have h3 : k < 1 := by exact_mod_cast h1
        have h4 : -1 < k := by exact_mod_cast h2
        omega
      subst hk0
      exact Int.ceil_eq_iff.mpr ⟨by push_cast at hq3 ⊢; linarith, by push_cast; linarith⟩

theorem pantoneBlend_eq (p s : Nat) (hp : p ≤ 255) (hs : s ≤ 100) :
    0 ≤ (25500 : Int) - ((255 - p) * s : Nat) ∧
    (25500 : Int) - ((255 - p) * s : Nat) ≤ 25500 ∧
    pantoneBlend p s = (((25500 : Int) - ((255 - p) * s : Nat) : Int) : ℚ) / 100 := by
  have hM : (255 - p) * s ≤ 255 * 100 := Nat.mul_le_mul (by omega) hs
  refine ⟨by omega, by omega, ?_⟩
  unfold pantoneBlend
  push_cast [Nat.cast_sub hp]
  ring

theorem pantoneChannel_rounds (p s : Nat) (hp : p ≤ 255) (hs : s ≤ 100) :
    pantoneChannel p s ≤ 255 ∧ RoundsBlend (pantoneChannel p s) p s := by
  obtain ⟨hN0, hN1, hB⟩ := pantoneBlend_eq p s hp hs
  have hnear := blendDouble_near p s hp hs
  rw [hB] at hnear
  obtain ⟨⟨hk1, hk2⟩, hr⟩ := cdr_round_near _ hN0 _ hnear
  unfold RoundsBlend IsPantoneTie
  rw [hB]
  generalize roundHalfAway ((((25500 : Int) - ((255 - p) * s : Nat) : Int) : ℚ) / 100) = k
    at hk1 hk2 hr ⊢
  unfold pantoneChannel toUnsigned
  simp only
  generalize cdr_round (blendDouble p (toDouble ((s : ℚ) / 100))) = r at hr ⊢
  generalize (255 - p) * s = M at hN0 hN1 hk1 hk2 hr ⊢
  rcases hr with hr | ⟨ht, hr⟩
  · have h0 : 0 ≤ r := by omega
    have h1 : r ≤ 255 := by omega
    split <;> omega
  · have h0 : 0 ≤ r := by omega
    have h1 : r ≤ 255 := by omega
    have htie : M % 100 = 50 := by omega
    split <;> omega

/-! ## The cases of the `switch` -/

theorem switchChannels_cmy (icc : ColorTransforms) (v : Nat) :
    switchChannels icc 0x04 v = (255 - v % 256, 255 - v / 256 % 256, 255 - v / 65536 % 256) := by
  simp only [switchChannels, col0_eq, col1_eq, col2_eq]

theorem switchChannels_gray (icc : ColorTransforms) (v : Nat) :
    switchChannels icc 0x09 v = (v % 256, v % 256, v % 256) := by
  simp only [switchChannels, col0_eq]

theorem switchChannels_rgb (icc : ColorTransforms) (v : Nat) :
    switchChannels icc 0x05 v =
      readRGB (icc.m_colorTransformRGB2RGB (v / 65536 % 256) (v / 256 % 256) (v % 256)) := by
  simp only [switchChannels, col0_eq, col1_eq, col2_eq]

theorem switchChannels_registration (icc : ColorTransforms) (v : Nat) :
    switchChannels icc 0x14 v =
      (toUChar (cdr_round (255 * ((v % 256 : Nat) : ℚ) / 100)),
       toUChar (cdr_round (255 * ((v % 256 : Nat) : ℚ) / 100)),
       toUChar (cdr_round (255 * ((v % 256 : Nat) : ℚ) / 100))) := by
  simp only [switchChannels, col0_eq]

theorem switchChannels_hsb (icc : ColorTransforms) (v : Nat) :
    switchChannels icc 0x06 v =
      hsb (v % 256) (v / 256 % 256) (v / 65536 % 256) (v / 16777216 % 256) := by
  simp only [switchChannels, col0_eq, col1_eq, col2_eq, col3_eq]

theorem switchChannels_hls (icc : ColorTransforms) (v : Nat) :
    switchChannels icc 0x07 v =
      hls (v % 256) (v / 256 % 256) (v / 65536 % 256) (v / 16777216 % 256) := by
  simp only [switchChannels, col0_eq, col1_eq, col2_eq, col3_eq]

theorem switchChannels_pantone (icc : ColorTransforms) (v : Nat) :
    switchChannels icc 0x00 v =
      pantoneCDR1 (v % 256) (v / 256 % 256) (v / 65536 % 256) (v / 16777216 % 256) := by
  simp only [switchChannels, col0_eq, col1_eq, col2_eq, col3_eq]

theorem roundHalfAway_intCast (n : Int) : roundHalfAway (n : ℚ) = n := by
  have h := cdr_round_bounds (n : ℚ) n n le_rfl le_rfl
  rw [cdr_round_eq_roundHalfAway] at h
  omega

set_option maxRecDepth 100000 in
theorem swatch_lengths :
    WaldoColorType0_R.length = 797 ∧ WaldoColorType0_G.length = 797 ∧
    WaldoColorType0_B.length = 797 := by
  decide!

theorem getD_le_of_all (l : List Nat) (h : l.all (fun x => decide (x ≤ 255)) = true)
    (idx : Nat) : l.getD idx 0 ≤ 255 := by
  by_cases hi : idx < l.length
  · rw [List.getD_eq_getElem _ _ hi]
    have hx := List.all_eq_true.mp h _ (List.getElem_mem hi)
    simpa using hx
  · rw [List.getD_eq_default _ _ (by omega)]
    decide

set_option maxRecDepth 100000 in
theorem swatch_le_255 (idx : Nat) :
    WaldoColorType0_R.getD idx 0 ≤ 255 ∧ WaldoColorType0_G.getD idx 0 ≤ 255 ∧
    WaldoColorType0_B.getD idx 0 ≤ 255 :=
  ⟨getD_le_of_all _ (by decide!) idx, getD_le_of_all _ (by decide!) idx,
   getD_le_of_all _ (by decide!) idx⟩

theorem pure_of_inTable (table : List Nat) (idx : Nat) (c : Prop) [Decidable c]
    (h : ¬ c → table.length ≤ idx) :
    (if c then table.getD idx 0 else 0) = table.getD idx 0 := by
  split
  · rfl
  · rename_i hc
    rw [List.getD_eq_default _ _ (h hc)]

theorem pantoneBlend_range (p s : Nat) (hp : p ≤ 255) (hs : s ≤ 100) :
    0 ≤ pantoneBlend p s ∧ pantoneBlend p s ≤ 255 := by
  unfold pantoneBlend
  have hp0 : (0 : ℚ) ≤ (p : ℚ) := by positivity
  have hp1 : (p : ℚ) ≤ 255 := by exact_mod_cast hp
  have ht0 : (0 : ℚ) ≤ (s : ℚ) / 100 := by positivity
  have ht1 : (s : ℚ) / 100 ≤ 1 := by
    have : (s : ℚ) ≤ 100 := by exact_mod_cast hs
    linarith
  constructor
  · have := mul_nonneg hp0 ht0
    linarith
  · have := mul_le_mul_of_nonneg_right hp1 ht0
    linarith

theorem clampHigh_of_range (q : ℚ) (h0 : 0 ≤ q) (h1 : q ≤ 255) :
    (if toUnsigned (cdr_round q) < 255 then toUnsigned (cdr_round q) % 256 else 255) =
      (roundHalfAway q).toNat ∧ 0 ≤ roundHalfAway q ∧ roundHalfAway q ≤ 255 := by
  have hb := cdr_round_bounds q 0 255 (by simpa using h0) (by simpa using h1)
  rw [← cdr_round_eq_roundHalfAway]
  refine ⟨?_, hb.1, hb.2⟩
  unfold toUnsigned
  split <;> omega

theorem pantoneCDR1_channels (col0 col1 col2 col3 : Nat)
    (h0 : col0 < 256) (h2 : col2 < 256) (h3 : col3 < 256) :
    pantoneCDR1 col0 col1 col2 col3 =
      (pantoneChannel (WaldoColorType0_R.getD ((256 * col1 + col0) % 65536) 0)
          (256 * col3 + col2),
       pantoneChannel (WaldoColorType0_G.getD ((256 * col1 + col0) % 65536) 0)
          (256 * col3 + col2),
       pantoneChannel (WaldoColorType0_B.getD ((256 * col1 + col0) % 65536) 0)
          (256 * col3 + col2)) := by
  have hsat : ((col3 % 65536) <<< 8) ||| (col2 % 65536) = 256 * col3 + col2 := by
    rw [Nat.mod_eq_of_lt (by omega : col2 < 65536), Nat.mod_eq_of_lt (by omega : col3 < 65536)]
    exact shl8_or _ _ h2
  have hL := swatch_lengths
  unfold pantoneCDR1 pantoneChannel
  simp only [shl8_or col1 col0 h0, hsat]
  rw [pure_of_inTable WaldoColorType0_R _ _ (fun hc => by rw [hL.1, hL.2.1, hL.2.2] at hc; omega),
    pure_of_inTable WaldoColorType0_G _ _ (fun hc => by rw [hL.1, hL.2.1, hL.2.2] at hc; omega),
    pure_of_inTable WaldoColorType0_B _ _ (fun hc => by rw [hL.1, hL.2.1, hL.2.2] at hc; omega)]

theorem getRGBColor_pantone (icc : ColorTransforms) (pal : Palette)
    (col0 col1 col2 col3 : Nat)
    (h0 : col0 < 256) (h1 : col1 < 256) (h2 : col2 < 256) (h3 : col3 < 256) :
    _getRGBColor icc pal ⟨0x00, packedValue col0 col1 col2 col3⟩ =
      packRGB
        (pantoneChannel (WaldoColorType0_R.getD (col1 * 256 + col0) 0) (col3 * 256 + col2),
         pantoneChannel (WaldoColorType0_G.getD (col1 * 256 + col0) 0) (col3 * 256 + col2),
         pantoneChannel (WaldoColorType0_B.getD (col1 * 256 + col0) 0) (col3 * 256 + col2)) := by
  have hb := packedValue_bytes col0 col1 col2 col3 h0 h1 h2 h3
  have hidx : (256 * col1 + col0) % 65536 = col1 * 256 + col0 := by omega
  have hsat : 256 * col3 + col2 = col3 * 256 + col2 := by omega
  rw [getRGBColor_direct icc pal 0x00 _ (by decide) (by decide), switchChannels_pantone,
    hb.1, hb.2.1, hb.2.2.1, hb.2.2.2, pantoneCDR1_channels col0 col1 col2 col3 h0 h2 h3,
    hidx, hsat]

theorem roundsBlend_of_not_tie (X p s : Nat) (h : RoundsBlend X p s)
    (hn : (255 - p) * s % 100 ≠ 50) : (X : Int) = roundHalfAway (pantoneBlend p s) := by
  rcases h with h | ⟨ht, -⟩
  · exact h
  · exact absurd ht hn

theorem pantoneChannel_zero (p : Nat) (hp : p ≤ 255) : pantoneChannel p 0 = 255 := by
  have h := roundsBlend_of_not_tie _ p 0 (pantoneChannel_rounds p 0 hp (by decide)).2
    (by simp)
  have e : pantoneBlend p 0 = ((255 : Int) : ℚ) := by
    unfold pantoneBlend
    norm_num
  rw [e, roundHalfAway_intCast] at h
  exact_mod_cast h

theorem pantoneChannel_full (p : Nat) (hp : p ≤ 255) : pantoneChannel p 100 = p := by
  have h := roundsBlend_of_not_tie _ p 100 (pantoneChannel_rounds p 100 hp (by decide)).2
    (by simp)
  have e : pantoneBlend p 100 = ((p : Int) : ℚ) := by
    unfold pantoneBlend
    norm_num
  rw [e, roundHalfAway_intCast] at h
  exact_mod_cast h

theorem hue_of_bytes (v : Nat) :
    (((v / 256 % 256) <<< 8) ||| (v % 256)) % 65536 = v % 65536 := by
  rw [shl8_or _ _ (Nat.mod_lt _ (by decide))]
  omega

theorem hueSectors_wrap (h : Nat) :
    hueSectors (wrapHue (h + 360)) = hueSectors (wrapHue h) := by
  by_cases h0 : h = 0
  · subst h0
    rw [wrapHue_eq, wrapHue_eq]
    norm_num [hueSectors]
  · have e : wrapHue (h + 360) = wrapHue h := by
      rw [wrapHue_eq, wrapHue_eq]
      split <;> split <;> omega
    rw [e]


theorem hsb_wrap (icc : ColorTransforms) (h aux : Nat) (hh : h + 360 ≤ 65535) :
    switchChannels icc 0x06 ((h + 360 + 65536 * aux) % 4294967296) =
      switchChannels icc 0x06 ((h + 65536 * aux) % 4294967296) := by
  have e2 : (h + 360 + 65536 * aux) % 4294967296 / 65536 % 256 =
      (h + 65536 * aux) % 4294967296 / 65536 % 256 := by omega
  have e3 : (h + 360 + 65536 * aux) % 4294967296 / 16777216 % 256 =
      (h + 65536 * aux) % 4294967296 / 16777216 % 256 := by omega
  have eh1 : (h + 360 + 65536 * aux) % 4294967296 % 65536 = h + 360 := by omega
  have eh0 : (h + 65536 * aux) % 4294967296 % 65536 = h := by omega
  rw [switchChannels_hsb, switchChannels_hsb]
  unfold hsb
  simp only [hue_of_bytes, e2, e3, eh1, eh0, hueSectors_wrap]

theorem hls_wrap (icc : ColorTransforms) (h aux : Nat) (hh : h + 360 ≤ 65535) :
    switchChannels icc 0x07 ((h + 360 + 65536 * aux) % 4294967296) =
      switchChannels icc 0x07 ((h + 65536 * aux) % 4294967296) := by
  have e2 : (h + 360 + 65536 * aux) % 4294967296 / 65536 % 256 =
      (h + 65536 * aux) % 4294967296 / 65536 % 256 := by omega
  have e3 : (h + 360 + 65536 * aux) % 4294967296 / 16777216 % 256 =
      (h + 65536 * aux) % 4294967296 / 16777216 % 256 := by omega
  have eh1 : (h + 360 + 65536 * aux) % 4294967296 % 65536 = h + 360 := by omega
  have eh0 : (h + 65536 * aux) % 4294967296 % 65536 = h := by omega
  rw [switchChannels_hls, switchChannels_hls]
  unfold hls
  simp only [hue_of_bytes, e2, e3, eh1, eh0, hueSectors_wrap]

theorem registration_range (c : Nat) (hc : c ≤ 100) :
    0 ≤ cdr_round (255 * (c : ℚ) / 100) ∧ cdr_round (255 * (c : ℚ) / 100) ≤ 255 := by
  have h0 : (0 : ℚ) ≤ (c : ℚ) := by positivity
  have h1 : (c : ℚ) ≤ 100 := by exact_mod_cast hc
  apply cdr_round_bounds
  · push_cast
    linarith
  · push_cast
    linarith

/-- Claim C17: for the CMY model `0x04` and every packed value, `_getRGBColor` has
`R = 255 - col0`, `G = 255 - col1` and `B = 255 - col2`, whatever the fourth byte, the
palette and the ICC transforms; `C = M = Y = 0` gives `0xFFFFFF` and
`C = M = Y = 255` gives `0x000000`. -/
theorem getRGBColor_cmy (icc : ColorTransforms) (m_documentPalette : Palette) (v : Nat) :
    _getRGBColor icc m_documentPalette ⟨0x04, v⟩ =
      ((255 - v % 256) <<< 16) ||| ((255 - v / 256 % 256) <<< 8) ||| (255 - v / 65536 % 256) ∧
    _getRGBColor icc m_documentPalette ⟨0x04, 0⟩ = 0xFFFFFF ∧
    _getRGBColor icc m_documentPalette ⟨0x04, 0xFFFFFF⟩ = 0x000000 := by
  have h : ∀ w : Nat, _getRGBColor icc m_documentPalette ⟨0x04, w⟩ =
      ((255 - w % 256) <<< 16) ||| ((255 - w / 256 % 256) <<< 8) ||| (255 - w / 65536 % 256) := by
    intro w
    rw [getRGBColor_direct icc m_documentPalette 0x04 w (by decide) (by decide),
      switchChannels_cmy, packRGB_eq _ ⟨by simp only; omega, by simp only; omega, by simp only; omega⟩]
    have e0 : w % 4294967296 % 256 = w % 256 := by omega
    have e1 : w % 4294967296 / 256 % 256 = w / 256 % 256 := by omega
    have e2 : w % 4294967296 / 65536 % 256 = w / 65536 % 256 := by omega
    simp only [e0, e1, e2]
  refine ⟨h v, ?_, ?_⟩
  · rw [h 0]; decide
  · rw [h 0xFFFFFF]; decide

/-- Claim C18: for the grayscale model `0x09` and every packed value `v`,
`_getRGBColor` has all three channels equal to the first byte: the result is
`(v & 0xff) * 0x010101`, whatever the upper three bytes; value `0x80` gives
`0x808080`. -/
theorem getRGBColor_gray (icc : ColorTransforms) (m_documentPalette : Palette) (v : Nat) :
    _getRGBColor icc m_documentPalette ⟨0x09, v⟩ = (v &&& 0xff) * 0x010101 ∧
    _getRGBColor icc m_documentPalette ⟨0x09, v⟩ =
      ((v &&& 0xff) <<< 16) ||| ((v &&& 0xff) <<< 8) ||| (v &&& 0xff) ∧
    _getRGBColor icc m_documentPalette ⟨0x09, 0x80⟩ = 0x808080 := by
  have h : ∀ w : Nat, _getRGBColor icc m_documentPalette ⟨0x09, w⟩ =
      ((w % 256) <<< 16) ||| ((w % 256) <<< 8) ||| (w % 256) := by
    intro w
    rw [getRGBColor_direct icc m_documentPalette 0x09 w (by decide) (by decide),
      switchChannels_gray, packRGB_eq _ ⟨by simp only; omega, by simp only; omega, by simp only; omega⟩]
    have e0 : w % 4294967296 % 256 = w % 256 := by omega
    simp only [e0]
  refine ⟨?_, ?_, ?_⟩
  · rw [h v, col0_eq, pack_eq_add _ _ _ (by omega) (by omega)]
    omega
  · rw [h v, col0_eq]
  · rw [h 0x80]; decide

/-- Claim C19: for the RGB model `0x05` and every packed value `v`, `_getRGBColor`
feeds the triple `(col2, col1, col0)` to the RGB-normalize transform and packs the
three bytes it writes as `(R << 16) | (G << 8) | B`; hence, when that transform is the
identity on 8-bit triples, the result is `v & 0xFFFFFF`. -/
theorem getRGBColor_rgb (icc : ColorTransforms) (m_documentPalette : Palette) (v : Nat) :
    _getRGBColor icc m_documentPalette ⟨0x05, v⟩ =
      ((icc.m_colorTransformRGB2RGB (v / 65536 % 256) (v / 256 % 256) (v % 256)).1 % 256) <<< 16
      ||| ((icc.m_colorTransformRGB2RGB (v / 65536 % 256) (v / 256 % 256) (v % 256)).2.1 % 256) <<< 8
      ||| ((icc.m_colorTransformRGB2RGB (v / 65536 % 256) (v / 256 % 256) (v % 256)).2.2 % 256) ∧
    ((∀ r g b : Nat, r < 256 → g < 256 → b < 256 →
        icc.m_colorTransformRGB2RGB r g b = (r, g, b)) →
      _getRGBColor icc m_documentPalette ⟨0x05, v⟩ = v &&& 0xFFFFFF) := by
  have h : _getRGBColor icc m_documentPalette ⟨0x05, v⟩ =
      ((icc.m_colorTransformRGB2RGB (v / 65536 % 256) (v / 256 % 256) (v % 256)).1 % 256) <<< 16
      ||| ((icc.m_colorTransformRGB2RGB (v / 65536 % 256) (v / 256 % 256) (v % 256)).2.1 % 256) <<< 8
      ||| ((icc.m_colorTransformRGB2RGB (v / 65536 % 256) (v / 256 % 256) (v % 256)).2.2 % 256) := by
    rw [getRGBColor_direct icc m_documentPalette 0x05 v (by decide) (by decide),
      switchChannels_rgb, packRGB_eq _ (readRGB_byte _)]
    have e0 : v % 4294967296 % 256 = v % 256 := by omega
    have e1 : v % 4294967296 / 256 % 256 = v / 256 % 256 := by omega
    have e2 : v % 4294967296 / 65536 % 256 = v / 65536 % 256 := by omega
    simp only [e0, e1, e2, readRGB]
  refine ⟨h, fun hid => ?_⟩
  rw [h, hid _ _ _ (Nat.mod_lt _ (by decide)) (Nat.mod_lt _ (by decide))
    (Nat.mod_lt _ (by decide))]
  dsimp only
  have hm : v &&& 0xFFFFFF = v % 2 ^ 24 := Nat.and_pow_two_sub_one_eq_mod v 24
  rw [hm, pack_eq_add _ _ _ (by omega) (by omega)]
  omega

/-- Witness for claim C19: with the identity as RGB-normalize transform, the RGB
colour of packed value `0x12ABCDEF` converts to `0xABCDEF`. -/
theorem getRGBColor_rgb_witness :
    _getRGBColor identityTransforms emptyPalette ⟨0x05, 0x12ABCDEF⟩ = 0x12ABCDEF &&& 0xFFFFFF ∧
    0x12ABCDEF &&& 0xFFFFFF = 0xABCDEF :=
  ⟨(getRGBColor_rgb identityTransforms emptyPalette 0x12ABCDEF).2 (fun _ _ _ _ _ _ => rfl),
   by decide⟩

/-- Claim C20, as the code has it: `getBMPColor` maps the legacy bitmap model code 2
to the CMY model `0x04`; the legacy code it maps to Lab v2, model `0x12`, is 11. -/
theorem getBMPColor_legacy_two (icc : ColorTransforms) (m_documentPalette : Palette)
    (v : Nat) :
    getBMPColor icc m_documentPalette ⟨2, v⟩ = _getRGBColor icc m_documentPalette ⟨0x04, v⟩ ∧
    getBMPColor icc m_documentPalette ⟨11, v⟩ = _getRGBColor icc m_documentPalette ⟨0x12, v⟩ :=
  ⟨rfl, rfl⟩

/-- Claim C20 fails as stated: with transforms that write zeros, `getBMPColor` of the
legacy model 2 and packed value 0 is `0xFFFFFF`, the CMY conversion, while
`_getRGBColor` of the Lab v2 model `0x12` and packed value 0 is `0x000000`. -/
theorem legacy_two_not_lab :
    getBMPColor zeroTransforms emptyPalette ⟨2, 0⟩ = 0xFFFFFF ∧
    _getRGBColor zeroTransforms emptyPalette ⟨0x12, 0⟩ = 0x000000 ∧
    getBMPColor zeroTransforms emptyPalette ⟨2, 0⟩ ≠
      _getRGBColor zeroTransforms emptyPalette ⟨0x12, 0⟩ := by
  decide

/-! ## The numeric claims on `_getRGBColor` -/

/-- Claim C11, as the code has it: for the CDR1 Pantone model `0x00`, with index
`col1*256 + col0`, `p` the swatch table entry of a channel at that index (0 when the
index is outside the table) and `s = col3*256 + col2` with `s ≤ 100`, each channel of
`_getRGBColor` is the blend computed in `double` arithmetic and rounded half away from
zero (`pantoneChannel p s`); it is the exact blend `255*(1 - s/100) + p*s/100` rounded
half away from zero, except that where the exact blend is a tie (an integer plus one
half) the computed blend can fall below the tie, and the channel is then one less. In
particular `s = 0` gives `0xFFFFFF` for every index, and `s = 100` gives the swatch
colour. -/
theorem getRGBColor_pantone_blend_double (icc : ColorTransforms)
    (m_documentPalette : Palette) (col0 col1 col2 col3 : Nat)
    (h0 : col0 < 256) (h1 : col1 < 256) (h2 : col2 < 256) (h3 : col3 < 256)
    (hs : col3 * 256 + col2 ≤ 100) :
    _getRGBColor icc m_documentPalette ⟨0x00, packedValue col0 col1 col2 col3⟩ =
      (pantoneChannel (WaldoColorType0_R.getD (col1 * 256 + col0) 0) (col3 * 256 + col2)
          <<< 16) |||
        (pantoneChannel (WaldoColorType0_G.getD (col1 * 256 + col0) 0) (col3 * 256 + col2)
          <<< 8) |||
        pantoneChannel (WaldoColorType0_B.getD (col1 * 256 + col0) 0) (col3 * 256 + col2) ∧
    RoundsBlend
      (pantoneChannel (WaldoColorType0_R.getD (col1 * 256 + col0) 0) (col3 * 256 + col2))
      (WaldoColorType0_R.getD (col1 * 256 + col0) 0) (col3 * 256 + col2) ∧
    RoundsBlend
      (pantoneChannel (WaldoColorType0_G.getD (col1 * 256 + col0) 0) (col3 * 256 + col2))
      (WaldoColorType0_G.getD (col1 * 256 + col0) 0) (col3 * 256 + col2) ∧
    RoundsBlend
      (pantoneChannel (WaldoColorType0_B.getD (col1 * 256 + col0) 0) (col3 * 256 + col2))
      (WaldoColorType0_B.getD (col1 * 256 + col0) 0) (col3 * 256 + col2) ∧
    (col3 * 256 + col2 = 0 →
      _getRGBColor icc m_documentPalette ⟨0x00, packedValue col0 col1 col2 col3⟩ =
        0xFFFFFF) ∧
    (col3 * 256 + col2 = 100 →
      _getRGBColor icc m_documentPalette ⟨0x00, packedValue col0 col1 col2 col3⟩ =
        (WaldoColorType0_R.getD (col1 * 256 + col0) 0 <<< 16) |||
        (WaldoColorType0_G.getD (col1 * 256 + col0) 0 <<< 8) |||
        WaldoColorType0_B.getD (col1 * 256 + col0) 0) := by
  have hle := swatch_le_255 (col1 * 256 + col0)
  have cR := pantoneChannel_rounds _ (col3 * 256 + col2) hle.1 hs
  have cG := pantoneChannel_rounds _ (col3 * 256 + col2) hle.2.1 hs
  have cB := pantoneChannel_rounds _ (col3 * 256 + col2) hle.2.2 hs
  have hpack := getRGBColor_pantone icc m_documentPalette col0 col1 col2 col3 h0 h1 h2 h3
  rw [packRGB_eq _ ⟨Nat.lt_succ_of_le cR.1, Nat.lt_succ_of_le cG.1, Nat.lt_succ_of_le cB.1⟩]
    at hpack
  refine ⟨hpack, cR.2, cG.2, cB.2, ?_, ?_⟩
  · intro hz
    rw [hpack, hz, pantoneChannel_zero _ hle.1, pantoneChannel_zero _ hle.2.1,
      pantoneChannel_zero _ hle.2.2]
    rfl
  · intro hf
    rw [hpack, hf, pantoneChannel_full _ hle.1, pantoneChannel_full _ hle.2.1,
      pantoneChannel_full _ hle.2.2]

/-- Witness for claim C11: index 1 with saturation field 100 gives the swatch colour
`0xFFEE00`, and with saturation field 0 gives `0xFFFFFF`; index 0 (pure black) with
saturation field 10 has the tie `229.5` in every channel, which the code rounds to 230:
`0xE6E6E6`. -/
theorem getRGBColor_pantone_blend_double_witness :
    0 * 256 + 100 ≤ 100 ∧
    _getRGBColor zeroTransforms emptyPalette ⟨0x00, packedValue 1 0 100 0⟩ = 0xFFEE00 ∧
    _getRGBColor zeroTransforms emptyPalette ⟨0x00, packedValue 1 0 0 0⟩ = 0xFFFFFF ∧
    pantoneBlend 0 10 = 459 / 2 ∧
    _getRGBColor zeroTransforms emptyPalette ⟨0x00, packedValue 0 0 10 0⟩ = 0xE6E6E6 := by
  have hfull := (getRGBColor_pantone_blend_double zeroTransforms emptyPalette 1 0 100 0
    (by decide) (by decide) (by decide) (by decide) (by decide)).2.2.2.2.2
  have hzero := (getRGBColor_pantone_blend_double zeroTransforms emptyPalette 1 0 0 0
    (by decide) (by decide) (by decide) (by decide) (by decide)).2.2.2.2.1
  refine ⟨by decide, ?_, hzero rfl, by decide!, by decide!⟩
  rw [hfull rfl]
  decide!

/-- Claim C11 fails as stated: index 0 is inside the table and pure black, and the
saturation field 90 is at most 100; the exact blend is `25.5`, which rounds half away
from zero to 26, so the claim requires `0x1A1A1A`; in `double` arithmetic the blend is
below `25.5` and the code returns `0x191919`. -/
theorem pantone_tie_rounds_down :
    0 * 256 + 0 < WaldoColorType0_R.length ∧ 0 * 256 + 90 ≤ 100 ∧
    WaldoColorType0_R.getD 0 0 = 0 ∧ WaldoColorType0_G.getD 0 0 = 0 ∧
    WaldoColorType0_B.getD 0 0 = 0 ∧
    pantoneBlend 0 90 = 51 / 2 ∧
    roundHalfAway (pantoneBlend 0 90) = 26 ∧
    blendDouble 0 (toDouble (90 / 100)) < 51 / 2 ∧
    _getRGBColor zeroTransforms emptyPalette ⟨0x00, packedValue 0 0 90 0⟩ = 0x191919 ∧
    _getRGBColor zeroTransforms emptyPalette ⟨0x00, packedValue 0 0 90 0⟩ ≠ 0x1A1A1A := by
  decide!

/-- Claim C12 at its own witness: index 0 is pure black and the saturation field 200
gives the blend `-255`, which a clamp into `[0, 255]` takes to 0 in every channel; the
code converts the rounded blend to `unsigned` before it compares with 255, and returns
`0xFFFFFF`. -/
theorem pantone_negative_blend_gives_white :
    WaldoColorType0_R.getD 0 0 = 0 ∧ WaldoColorType0_G.getD 0 0 = 0 ∧
    WaldoColorType0_B.getD 0 0 = 0 ∧
    pantoneBlend 0 200 = -255 ∧
    clampByte (roundHalfAway (pantoneBlend 0 200)) = 0 ∧
    _getRGBColor zeroTransforms emptyPalette ⟨0x00, packedValue 0 0 200 0⟩ = 0xFFFFFF := by
  decide!

/-- Claim C13, as the code has it: each swatch table has 797 entries, and for every
Pantone index of at least 797 with saturation field 100, `_getRGBColor` of the CDR1
Pantone colour is `0x000000`, the swatch base being pure black. -/
theorem getRGBColor_pantone_out_of_table (icc : ColorTransforms)
    (m_documentPalette : Palette) (col0 col1 : Nat) (h0 : col0 < 256) (h1 : col1 < 256)
    (hidx : 797 ≤ col1 * 256 + col0) :
    WaldoColorType0_R.length = 797 ∧ WaldoColorType0_G.length = 797 ∧
    WaldoColorType0_B.length = 797 ∧
    _getRGBColor icc m_documentPalette ⟨0x00, packedValue col0 col1 100 0⟩ = 0x000000 := by
  have hL := swatch_lengths
  refine ⟨hL.1, hL.2.1, hL.2.2, ?_⟩
  rw [getRGBColor_pantone icc m_documentPalette col0 col1 100 0 h0 h1 (by decide) (by decide),
    List.getD_eq_default _ _ (by rw [hL.1]; exact hidx),
    List.getD_eq_default _ _ (by rw [hL.2.1]; exact hidx),
    List.getD_eq_default _ _ (by rw [hL.2.2]; exact hidx),
    pantoneChannel_full 0 (by decide)]
  rfl

/-- Witness for claim C13: index 800, saturation field 100. -/
theorem getRGBColor_pantone_out_of_table_witness :
    797 ≤ 3 * 256 + 0x20 ∧
    _getRGBColor zeroTransforms emptyPalette ⟨0x00, packedValue 0x20 3 100 0⟩ = 0x000000 :=
  ⟨by decide, (getRGBColor_pantone_out_of_table zeroTransforms emptyPalette 0x20 3
    (by decide) (by decide) (by decide)).2.2.2⟩

/-- Claim C13 fails as stated: the swatch tables do not have 512 entries, and index
600, which is at least 512, with saturation field 100 converts to the swatch colour
`0x864E00`, not to `0x000000`. -/
theorem pantone_index_600_in_table :
    WaldoColorType0_R.length ≠ 512 ∧
    512 ≤ 2 * 256 + 0x58 ∧ 2 * 256 + 0x58 = 600 ∧
    _getRGBColor zeroTransforms emptyPalette ⟨0x00, packedValue 0x58 2 100 0⟩ = 0x864E00 ∧
    _getRGBColor zeroTransforms emptyPalette ⟨0x00, packedValue 0x58 2 100 0⟩ ≠ 0x000000 := by
  decide!

/-- Claim C14: for the HSB model `0x06` and the HLS model `0x07`, for every 16-bit hue
`h` with `h + 360 ≤ 65535` and every pair of auxiliary bytes `aux`, `_getRGBColor`
with hue `h + 360` equals `_getRGBColor` with hue `h`. -/
theorem getRGBColor_hue_wrap (icc : ColorTransforms) (m_documentPalette : Palette)
    (h aux : Nat) (hh : h + 360 ≤ 65535) :
    _getRGBColor icc m_documentPalette ⟨0x06, h + 360 + 65536 * aux⟩ =
      _getRGBColor icc m_documentPalette ⟨0x06, h + 65536 * aux⟩ ∧
    _getRGBColor icc m_documentPalette ⟨0x07, h + 360 + 65536 * aux⟩ =
      _getRGBColor icc m_documentPalette ⟨0x07, h + 65536 * aux⟩ := by
  constructor
  · rw [getRGBColor_direct icc m_documentPalette 0x06 _ (by decide) (by decide),
      getRGBColor_direct icc m_documentPalette 0x06 _ (by decide) (by decide),
      hsb_wrap icc h aux hh]
  · rw [getRGBColor_direct icc m_documentPalette 0x07 _ (by decide) (by decide),
      getRGBColor_direct icc m_documentPalette 0x07 _ (by decide) (by decide),
      hls_wrap icc h aux hh]

/-- Witness for claim C14: with both auxiliary bytes 255, hue 360 and hue 720 convert
as hue 0 does, in both models. -/
theorem getRGBColor_hue_wrap_witness :
    (_getRGBColor zeroTransforms emptyPalette ⟨0x06, 0 + 360 + 65536 * 0xFFFF⟩ =
      _getRGBColor zeroTransforms emptyPalette ⟨0x06, 0 + 65536 * 0xFFFF⟩ ∧
     _getRGBColor zeroTransforms emptyPalette ⟨0x07, 0 + 360 + 65536 * 0xFFFF⟩ =
      _getRGBColor zeroTransforms emptyPalette ⟨0x07, 0 + 65536 * 0xFFFF⟩) ∧
    (_getRGBColor zeroTransforms emptyPalette ⟨0x06, 360 + 360 + 65536 * 0xFFFF⟩ =
      _getRGBColor zeroTransforms emptyPalette ⟨0x06, 0 + 65536 * 0xFFFF⟩ ∧
     _getRGBColor zeroTransforms emptyPalette ⟨0x07, 360 + 360 + 65536 * 0xFFFF⟩ =
      _getRGBColor zeroTransforms emptyPalette ⟨0x07, 0 + 65536 * 0xFFFF⟩) :=
  ⟨getRGBColor_hue_wrap zeroTransforms emptyPalette 0 0xFFFF (by decide),
   ⟨(getRGBColor_hue_wrap zeroTransforms emptyPalette 360 0xFFFF (by decide)).1.trans
      (getRGBColor_hue_wrap zeroTransforms emptyPalette 0 0xFFFF (by decide)).1,
    (getRGBColor_hue_wrap zeroTransforms emptyPalette 360 0xFFFF (by decide)).2.trans
      (getRGBColor_hue_wrap zeroTransforms emptyPalette 0 0xFFFF (by decide)).2⟩⟩

/-- Claim C15: for the Registration model `0x14` and every packed value whose first
byte `col0` is at most 100, `_getRGBColor` has `R = G = B`, the value `255*col0/100`
rounded half away from zero, whatever the other bytes. -/
theorem getRGBColor_registration (icc : ColorTransforms) (m_documentPalette : Palette)
    (v : Nat) (hcol0 : v % 256 ≤ 100) :
    ∃ r : Nat, (r : Int) = roundHalfAway (255 * ((v % 256 : Nat) : ℚ) / 100) ∧ r ≤ 255 ∧
      _getRGBColor icc m_documentPalette ⟨0x14, v⟩ = (r <<< 16) ||| (r <<< 8) ||| r := by
  have hb := registration_range (v % 256) hcol0
  have hu : toUChar (cdr_round (255 * ((v % 256 : Nat) : ℚ) / 100)) =
      (cdr_round (255 * ((v % 256 : Nat) : ℚ) / 100)).toNat := by
    unfold toUChar
    omega
  have e0 : v % 4294967296 % 256 = v % 256 := by omega
  refine ⟨(cdr_round (255 * ((v % 256 : Nat) : ℚ) / 100)).toNat, ?_, by omega, ?_⟩
  · rw [← cdr_round_eq_roundHalfAway]
    exact Int.toNat_of_nonneg hb.1
  · rw [getRGBColor_direct icc m_documentPalette 0x14 v (by decide) (by decide),
      switchChannels_registration, e0, hu,
      packRGB_eq _ ⟨by simp only; omega, by simp only; omega, by simp only; omega⟩]

/-- Witness for claim C15: first byte 50, the other bytes set, gives `0x808080`
(127.5 rounds to 128); first byte 100 gives `0xFFFFFF` and first byte 0 gives
`0x000000`. -/
theorem getRGBColor_registration_witness :
    (0xABCDEF32 % 256 ≤ 100 ∧
      ∃ r : Nat, (r : Int) = roundHalfAway (255 * ((0xABCDEF32 % 256 : Nat) : ℚ) / 100) ∧
        r ≤ 255 ∧
        _getRGBColor zeroTransforms emptyPalette ⟨0x14, 0xABCDEF32⟩ =
          (r <<< 16) ||| (r <<< 8) ||| r) ∧
    roundHalfAway (255 * ((0xABCDEF32 % 256 : Nat) : ℚ) / 100) = 128 ∧
    _getRGBColor zeroTransforms emptyPalette ⟨0x14, 0xABCDEF32⟩ = 0x808080 ∧
    _getRGBColor zeroTransforms emptyPalette ⟨0x14, 50⟩ = 0x808080 ∧
    _getRGBColor zeroTransforms emptyPalette ⟨0x14, 100⟩ = 0xFFFFFF ∧
    _getRGBColor zeroTransforms emptyPalette ⟨0x14, 0⟩ = 0x000000 :=
  ⟨⟨by decide, getRGBColor_registration zeroTransforms emptyPalette 0xABCDEF32 (by decide)⟩,
   by decide!, by decide!, by decide!, by decide!, by decide!⟩

/-- Claim C16 at its own witness: for the Registration model `0x14` and first byte
200 the rounded value is 510, which a saturating clamp takes to 255; the code converts
510 to `unsigned char`, which is 254, and returns `0xFEFEFE`, not `0xFFFFFF`. -/
theorem registration_over_range_wraps :
    roundHalfAway (255 * ((200 : Nat) : ℚ) / 100) = 510 ∧
    clampByte (roundHalfAway (255 * ((200 : Nat) : ℚ) / 100)) = 255 ∧
    _getRGBColor zeroTransforms emptyPalette ⟨0x14, 200⟩ = 0xFEFEFE ∧
    _getRGBColor zeroTransforms emptyPalette ⟨0x14, 200⟩ ≠ 0xFFFFFF := by
  decide!

/-! ## Properties of `getRGBColorString` -/

theorem fixedHex_zero (k : Nat) : fixedHex k 0 = List.replicate k '0' := by
  induction k with
  | zero => rfl
  | succ k ih =>
    simp only [fixedHex, Nat.zero_div, ih, List.replicate_succ']
    rfl

theorem fixedHex_length (k : Nat) : ∀ n : Nat, (fixedHex k n).length = k := by
  induction k with
  | zero => intro n; rfl
  | succ k ih => intro n; simp [fixedHex, ih]

theorem formatHex_eq_fixedHex (k : Nat) : ∀ n fuel : Nat, n < 16 ^ k → n ≤ fuel →
    (hexDigitsRev fuel n).length ≤ k ∧
    List.replicate (k - (hexDigitsRev fuel n).length) '0' ++ (hexDigitsRev fuel n).reverse =
      fixedHex k n := by
  induction k with
  | zero =>
    intro n fuel hn _
    have h0 : n = 0 := by simpa using hn
    subst h0
    cases fuel <;> simp [hexDigitsRev, fixedHex]
  | succ k ih =>
    intro n fuel hn hf
    by_cases h0 : n = 0
    · subst h0
      have he : hexDigitsRev fuel 0 = [] := by cases fuel <;> simp [hexDigitsRev]
      rw [he, fixedHex_zero]
      simp
    · cases fuel with
      | zero => omega
      | succ fuel =>
        have hlt : n / 16 < 16 ^ k := by
          rw [pow_succ] at hn
          omega
        obtain ⟨hlen, heq⟩ := ih (n / 16) fuel hlt (by omega)
        simp only [hexDigitsRev, h0, if_false, List.length_cons, List.reverse_cons, fixedHex]
        refine ⟨by omega, ?_⟩
        rw [← heq, Nat.add_sub_add_right, List.append_assoc]

theorem hexValue_digitChar : ∀ d : Nat, d < 16 → hexValue (Nat.digitChar d) = d := by
  decide

theorem parseHex_append (l : List Char) (c : Char) :
    parseHex (l ++ [c]) = 16 * parseHex l + hexValue c := by
  simp [parseHex, List.foldl_append]

theorem parseHex_fixedHex (k : Nat) : ∀ n : Nat, parseHex (fixedHex k n) = n % 16 ^ k := by
  induction k with
  | zero => intro n; simp [fixedHex, parseHex, Nat.mod_one]
  | succ k ih =>
    intro n
    rw [fixedHex, parseHex_append, ih, hexValue_digitChar _ (Nat.mod_lt _ (by decide)),
      pow_succ, Nat.mul_comm (16 ^ k) 16, Nat.mod_mul]
    omega

theorem fixedHex_six (n : Nat) :
    fixedHex 6 n =
      [Nat.digitChar (n / 1048576 % 16), Nat.digitChar (n / 65536 % 16),
       Nat.digitChar (n / 4096 % 16), Nat.digitChar (n / 256 % 16),
       Nat.digitChar (n / 16 % 16), Nat.digitChar (n % 16)] := by
  simp [fixedHex, Nat.div_div_eq_div_mul]

theorem getRGBColor_lt (icc : ColorTransforms) (pal : Palette) (color : CDRColor) :
    _getRGBColor icc pal color < 16 ^ 6 := by
  have hb := switchChannels_byte icc (spotLookup pal color).1 (spotLookup pal color).2
  rw [getRGBColor_def, packRGB_eq _ hb]
  have hl := pack_lt _ _ _ hb.1 hb.2.1 hb.2.2
  omega

/-- Claim C21: for every colour, `getRGBColorString` returns exactly 7 characters:
`#` followed by the six zero-padded hexadecimal digits of `_getRGBColor` of that colour,
most significant first, so that reading the six digits as a hexadecimal number gives
back the value of `_getRGBColor`. -/
theorem getRGBColorString_format (icc : ColorTransforms) (m_documentPalette : Palette)
    (color : CDRColor) :
    (getRGBColorString icc m_documentPalette color).length = 7 ∧
    (getRGBColorString icc m_documentPalette color).data =
      ['#',
       Nat.digitChar (_getRGBColor icc m_documentPalette color / 1048576 % 16),
       Nat.digitChar (_getRGBColor icc m_documentPalette color / 65536 % 16),
       Nat.digitChar (_getRGBColor icc m_documentPalette color / 4096 % 16),
       Nat.digitChar (_getRGBColor icc m_documentPalette color / 256 % 16),
       Nat.digitChar (_getRGBColor icc m_documentPalette color / 16 % 16),
       Nat.digitChar (_getRGBColor icc m_documentPalette color % 16)] ∧
    parseHex (getRGBColorString icc m_documentPalette color).data.tail =
      _getRGBColor icc m_documentPalette color := by
  have hlt := getRGBColor_lt icc m_documentPalette color
  have hf : formatHex 6 (_getRGBColor icc m_documentPalette color) =
      fixedHex 6 (_getRGBColor icc m_documentPalette color) :=
    (formatHex_eq_fixedHex 6 _ _ hlt le_rfl).2
  have hd : (getRGBColorString icc m_documentPalette color).data =
      '#' :: fixedHex 6 (_getRGBColor icc m_documentPalette color) := by
    rw [← hf]
    rfl
  refine ⟨?_, ?_, ?_⟩
  · show (getRGBColorString icc m_documentPalette color).data.length = 7
    rw [hd, List.length_cons, fixedHex_length]
  · rw [hd, fixedHex_six]
  · rw [hd, List.tail_cons, parseHex_fixedHex, Nat.mod_eq_of_lt hlt]

/-! ## Properties of `setColorTransform` -/

theorem switchChannels_lab1 (icc : ColorTransforms) (v : Nat) :
    switchChannels icc 0x0c v =
      readRGB (icc.m_colorTransformLab2RGB (((v % 256 : Nat) : ℚ) * 100 / 255)
        (toSChar ((v / 256 % 256 : Nat) : Int)) (toSChar ((v / 65536 % 256 : Nat) : Int))) := by
  simp only [switchChannels, col0_eq, col1_eq, col2_eq]

theorem switchChannels_lab2 (icc : ColorTransforms) (v : Nat) :
    switchChannels icc 0x12 v =
      readRGB (icc.m_colorTransformLab2RGB (((v % 256 : Nat) : ℚ) * 100 / 255)
        (toSChar (((v / 256 % 256 : Nat) : Int) - 0x80))
        (toSChar (((v / 65536 % 256 : Nat) : Int) - 0x80))) := by
  simp only [switchChannels, col0_eq, col1_eq, col2_eq]

theorem cdr_round_zero : cdr_round 0 = 0 := by
  have h := cdr_round_bounds 0 0 0 (by norm_num) (by norm_num)
  omega

theorem hsb_black (col0 col1 col2 : Nat) : hsb col0 col1 col2 0 = (0, 0, 0) := by
  simp only [hsb, Nat.cast_zero, zero_div, mul_zero, cdr_round_zero]
  rfl

theorem hsb_primary (icc : ColorTransforms) (pal : Palette) (hue : Nat) (rgb : Nat)
    (h : packRGB (hsb ((hue + 65536 * 0xFFFF) % 4294967296 % 256)
      ((hue + 65536 * 0xFFFF) % 4294967296 / 256 % 256)
      ((hue + 65536 * 0xFFFF) % 4294967296 / 65536 % 256)
      ((hue + 65536 * 0xFFFF) % 4294967296 / 16777216 % 256)) = rgb) :
    _getRGBColor icc pal ⟨0x06, hue + 65536 * 0xFFFF⟩ = rgb := by
  rw [getRGBColor_direct icc pal 0x06 _ (by decide) (by decide), switchChannels_hsb]
  exact h

/-- Claim C23: for the HSB model `0x06` with saturation byte 255 and brightness byte
255, hue 0 gives `0xFF0000`, hue 60 `0xFFFF00`, hue 120 `0x00FF00`, hue 180
`0x00FFFF`, hue 240 `0x0000FF` and hue 300 `0xFF00FF`; and for every hue and
saturation, brightness byte 0 gives `0x000000`. -/
theorem getRGBColor_hsb_primaries (icc : ColorTransforms) (m_documentPalette : Palette) :
    _getRGBColor icc m_documentPalette ⟨0x06, 0 + 65536 * 0xFFFF⟩ = 0xFF0000 ∧
    _getRGBColor icc m_documentPalette ⟨0x06, 60 + 65536 * 0xFFFF⟩ = 0xFFFF00 ∧
    _getRGBColor icc m_documentPalette ⟨0x06, 120 + 65536 * 0xFFFF⟩ = 0x00FF00 ∧
    _getRGBColor icc m_documentPalette ⟨0x06, 180 + 65536 * 0xFFFF⟩ = 0x00FFFF ∧
    _getRGBColor icc m_documentPalette ⟨0x06, 240 + 65536 * 0xFFFF⟩ = 0x0000FF ∧
    _getRGBColor icc m_documentPalette ⟨0x06, 300 + 65536 * 0xFFFF⟩ = 0xFF00FF ∧
    (∀ v : Nat, v / 16777216 % 256 = 0 →
      _getRGBColor icc m_documentPalette ⟨0x06, v⟩ = 0x000000) := by
  refine ⟨hsb_primary icc _ 0 _ (by decide!), hsb_primary icc _ 60 _ (by decide!),
    hsb_primary icc _ 120 _ (by decide!), hsb_primary icc _ 180 _ (by decide!),
    hsb_primary icc _ 240 _ (by decide!), hsb_primary icc _ 300 _ (by decide!), ?_⟩
  intro v hv
  have e3 : v % 4294967296 / 16777216 % 256 = 0 := by omega
  rw [getRGBColor_direct icc m_documentPalette 0x06 v (by decide) (by decide),
    switchChannels_hsb, e3, hsb_black]
  rfl

/-- Witness for claim C23: hue 120 with saturation byte 255 and brightness byte 0. -/
theorem getRGBColor_hsb_primaries_witness :
    0x00FF0078 / 16777216 % 256 = 0 ∧
    _getRGBColor zeroTransforms emptyPalette ⟨0x06, 0x00FF0078⟩ = 0x000000 :=
  ⟨by decide, (getRGBColor_hsb_primaries zeroTransforms emptyPalette).2.2.2.2.2.2
    0x00FF0078 (by decide)⟩

theorem toSChar_offset (c : Nat) (hc : c < 256) :
    toSChar (((c + 128) % 256 : Nat) : Int) = (c : Int) - 128 ∧
    toSChar ((c : Int) - 0x80) = (c : Int) - 128 := by
  unfold toSChar
  constructor <;> omega

/-- Claim C24: for every bytes `col0`, `col1`, `col2` (and any fourth byte),
`_getRGBColor` of the Lab v2 colour (model `0x12`) with these bytes equals
`_getRGBColor` of the Lab v1 colour (model `0x0c`) with bytes `col0`,
`(col1 + 128) mod 256`, `(col2 + 128) mod 256`: both feed `L = col0*100/255`,
`a = col1 - 128` and `b = col2 - 128`, which lie in `[-128, 127]`, to the Lab
transform. -/
theorem getRGBColor_lab_offset (icc : ColorTransforms) (m_documentPalette : Palette)
    (col0 col1 col2 col3 : Nat)
    (h0 : col0 < 256) (h1 : col1 < 256) (h2 : col2 < 256) (h3 : col3 < 256) :
    _getRGBColor icc m_documentPalette ⟨0x12, packedValue col0 col1 col2 col3⟩ =
      _getRGBColor icc m_documentPalette
        ⟨0x0c, packedValue col0 ((col1 + 128) % 256) ((col2 + 128) % 256) col3⟩ ∧
    _getRGBColor icc m_documentPalette ⟨0x12, packedValue col0 col1 col2 col3⟩ =
      packRGB (readRGB (icc.m_colorTransformLab2RGB ((col0 : ℚ) * 100 / 255)
        (((col1 : Int) - 128 : Int) : ℚ) (((col2 : Int) - 128 : Int) : ℚ))) ∧
    (-128 ≤ (col1 : Int) - 128 ∧ (col1 : Int) - 128 ≤ 127) ∧
    (-128 ≤ (col2 : Int) - 128 ∧ (col2 : Int) - 128 ≤ 127) := by
  have hb := packedValue_bytes col0 col1 col2 col3 h0 h1 h2 h3
  have hb1 := packedValue_bytes col0 ((col1 + 128) % 256) ((col2 + 128) % 256) col3 h0
    (Nat.mod_lt _ (by decide)) (Nat.mod_lt _ (by decide)) h3
  have e2 : _getRGBColor icc m_documentPalette ⟨0x12, packedValue col0 col1 col2 col3⟩ =
      packRGB (readRGB (icc.m_colorTransformLab2RGB ((col0 : ℚ) * 100 / 255)
        (((col1 : Int) - 128 : Int) : ℚ) (((col2 : Int) - 128 : Int) : ℚ))) := by
    rw [getRGBColor_direct icc m_documentPalette 0x12 _ (by decide) (by decide),
      switchChannels_lab2, hb.1, hb.2.1, hb.2.2.1, (toSChar_offset col1 h1).2,
      (toSChar_offset col2 h2).2]
  have e1 : _getRGBColor icc m_documentPalette
      ⟨0x0c, packedValue col0 ((col1 + 128) % 256) ((col2 + 128) % 256) col3⟩ =
      packRGB (readRGB (icc.m_colorTransformLab2RGB ((col0 : ℚ) * 100 / 255)
        (((col1 : Int) - 128 : Int) : ℚ) (((col2 : Int) - 128 : Int) : ℚ))) := by
    rw [getRGBColor_direct icc m_documentPalette 0x0c _ (by decide) (by decide),
      switchChannels_lab1, hb1.1, hb1.2.1, hb1.2.2.1, (toSChar_offset col1 h1).1,
      (toSChar_offset col2 h2).1]
  exact ⟨e2.trans e1.symm, e2, by omega, by omega⟩

/-- Witness for claim C24: the Lab v2 bytes `a = b = 0x80` give the same colour as the
Lab v1 bytes `a = b = 0x00`; with a Lab transform that writes `a + 128`, `b + 128` and
`L` the colour is `0x808019`. -/
theorem getRGBColor_lab_offset_witness :
    (0x80 + 128) % 256 = 0 ∧
    _getRGBColor labProbeTransforms emptyPalette ⟨0x12, packedValue 0x40 0x80 0x80 0⟩ =
      _getRGBColor labProbeTransforms emptyPalette
        ⟨0x0c, packedValue 0x40 ((0x80 + 128) % 256) ((0x80 + 128) % 256) 0⟩ ∧
    _getRGBColor labProbeTransforms emptyPalette ⟨0x0c, packedValue 0x40 0 0 0⟩ = 0x808019 :=
  ⟨by decide,
   (getRGBColor_lab_offset labProbeTransforms emptyPalette 0x40 0x80 0x80 0
    (by decide) (by decide) (by decide) (by decide)).1, by decide!⟩

/-! ## The range of the HSB and HLS channels -/

end libcdr
